import Mathlib

/-!
Verification of the NumKa transpiler (`src/numka.py`) against its
natural-language specification.

This file is a shallow embedding of the compilation engine: the
character-level sub-parsers (`parse_template_args`, `parse_contition`),
the deduplication-name generator (`gen_comp_name`), the instance
compiler (`compile_fn`, lines 414-959 of the source) and the top-level
driver loop of `compile_source_file` (lines 1011-1029).

Modelling conventions, fixed once here:

* Python's raw character scan over a function body (lines 475-946) splits
  the body into `;`-terminated statement accumulators and `{`/`}`-matched
  blocks.  The embedding represents a body as a list of `Item`s: a `stmt`
  holds the accumulator text exactly as the scanner would have gathered it
  (whitespace runs collapsed to single spaces), a `block` holds the
  accumulator text before the `{`, the items inside the braces, and - for
  lambda blocks - the text between the closing `}` and the `;`.  All
  statement dispatch below the item level is done on the raw strings,
  transcribing the `startswith`/`split`/`in` chains of the source.
* Machine integers: Python's `int` is unbounded, so `Int`/`Nat` are used
  directly.  The segment nesting depth can go negative in Python (the
  unfinished `=`-block construct decrements it without a matching
  increment), so it is an `Int` here as well.
* Python's process-seeded `hash()` of a `str` and of a `tuple` of `str`s
  is not a fixed mathematical function; the embedding takes the two hash
  functions as parameters of the configuration (`hashStr`, `hashTup`).
  A fixed choice of both makes every definition below executable.
* Errors: `CompileError` carries a source window and line number in
  Python; only the message is modelled.  A separate constructor `crash`
  marks places where the Python would die with an uncaught exception
  (e.g. `IndexError`), and `fuel` marks exhaustion of the recursion
  fuel that makes the (memoised, terminating) recursion structural.
* Out of the embedded fragment: file I/O, import resolution, terminal
  rendering of diagnostics, the `-vv` dump, and the residual
  `[...]`-token warning path of the scanner (lines 498-513; bodies are
  assumed fully template-resolved).  Python's `int(s, base=0)` is
  modelled for optionally-signed decimal literals; base-prefixed and
  underscore forms map to `none` (in the source every such literal also
  fails compilation, one line later, by the exact-roundtrip test on
  `str(count)`).
-/

namespace NumKa

/-- Compilation outcome errors.  `ce` is Python's `CompileError` (message
only), `crash` an uncaught Python exception, `fuel` exhaustion of the
structural recursion fuel. -/
inductive Err where
  | fuel
  | ce (msg : String)
  | crash (msg : String)
deriving DecidableEq, Repr

/-- `CallableAst` (source lines 160-163): an abstract callable handle used
for continuations. -/
structure CallableAst where
  name : String
  comp_name : String
deriving DecidableEq, Repr

/-- A body item as the character scanner of `compile_fn` would delimit it:
a `;`-terminated statement accumulator, or a braced block with the header
accumulator before its `{` and (for lambda blocks) the trailing text
between `}` and `;`. -/
inductive Item where
  | stmt (acc : String)
  | block (hdr : String) (body : List Item) (post : String)

/-- `FnPrototypeAst` (source lines 165-180).  Source coordinates
(`line_of_definition`, `src`, `src_file`), used only for diagnostics, are
omitted; `fn_src` is represented by the item list. -/
structure FnPrototypeAst where
  name : String
  template_args : List String
  top_level_implicit_usage : Bool
  is_slice_valid : Bool
  body : List Item

/-- `FnInstanceAst` (source lines 182-195).  `owning_lambdas` keeps the
comp_names of the owned lambda instances (the source keeps the instances
themselves but only ever reads their length and appends).
`tracked_stack_slices` is declared in the source but never used and is
omitted. -/
structure FnInstanceAst where
  name : String
  comp_name : String
  owning_lambdas : List String
  compiled_segments : List String
  commit_fn : Option CallableAst
  instance_template_args : List String
  inherited_template_arg_values : List String
  inherited_template_args : List String
deriving DecidableEq, Repr

/-- `CallLocationAst` (source lines 197-211), minus the diagnostic source
coordinates. -/
structure CallLocationAst where
  caller_fn_name : String
  callee_fn_name : String
  template_arg_values : List String
  inherited_template_arg_values : List String := []
  inherited_template_args : List String := []
  callee_commit_dest_fn : Option CallableAst
deriving DecidableEq, Repr

/-- The compiler configuration: the command-line flags consumed by the
core (`-g`, `-lmax-for-loop-count`, `-W` as a level 0/1/2) together with
the injected dialect tables (`builtin_fns`, `builtit_reserved`,
`builtin_cg_keywords`, source lines 86-89) and the two Python hash
functions used by `gen_comp_name`. -/
structure Config where
  g : Bool
  max_loop_count : Int
  warning_level : Nat
  hashStr : String → Int
  hashTup : List String → Int
  builtin_fns : List (String × String)
  builtit_reserved : List String
  builtin_cg_keywords : List (String × String)

/-- The `PyKarel/Kvm` dialect primitive table (source lines 19-26). -/
def pykarel_fns : List (String × String) :=
  [("step", "STEP"), ("left", "LEFT"), ("pick", "PICK"),
   ("place", "PLACE"), ("stop", "STOP")]

/-- The `PyKarel/Kvm` reserved identifiers (source lines 27-31). -/
def pykarel_reserved : List String := ["end", "until", "repeat"]

/-- The `PyKarel/Kvm` codegen keyword table (source lines 32-49). -/
def pykarel_cg : List (String × String) :=
  [("end", "END"), ("if", "IF"), ("is", "IS"), ("not", "ISNOT"),
   ("else", "END, ELSE"), ("while", "UNTIL"), ("for", "REPEAT"),
   ("for-suffix", "-TIMES"),
   ("wall", "WALL"), ("flag", "FLAG"), ("home", "HOME"),
   ("north", "NORTH"), ("south", "SOUTH"), ("east", "EAST"),
   ("west", "WEST")]

/-- Codegen keyword lookup, `builtin_cg_keywords[k]`.  Every key used by
the compiler is present in the table, so the default is never hit on the
concrete configurations below. -/
def cgkw (cfg : Config) (k : String) : String :=
  (cfg.builtin_cg_keywords.lookup k).getD ""

/-- The default configuration: default CLI flags (`-W all`, no `-g`,
`-lmax-for-loop-count 65535`), the `PyKarel/Kvm` dialect, and a pair of
hash functions standing in for the process's seeded `hash()`. -/
def mkConfig (hs : String → Int) (ht : List String → Int) : Config :=
  { g := false
    max_loop_count := 65535
    warning_level := 1
    hashStr := hs
    hashTup := ht
    builtin_fns := pykarel_fns
    builtit_reserved := pykarel_reserved
    builtin_cg_keywords := pykarel_cg }

/-! ## Python string primitives

The embedding works at the code-point level, like Python `str`.  These
shims give the handful of `str` operations the compiler uses, written by
structural recursion over the character list (so that every definition
in this file evaluates inside the kernel). -/

/-- Python `str.strip()` on a character list. -/
def strip_chars (cs : List Char) : List Char :=
  ((cs.dropWhile Char.isWhitespace).reverse.dropWhile Char.isWhitespace).reverse

/-- Python `str.strip()`. -/
def py_strip (s : String) : String := String.mk (strip_chars s.toList)

/-- Prefix test on character lists. -/
def starts_with_chars : List Char → List Char → Bool
  | _, [] => true
  | [], _ :: _ => false
  | c :: cs, p :: ps => c == p && starts_with_chars cs ps

/-- Python `s.startswith(pre)`. -/
def py_starts_with (s pre : String) : Bool :=
  starts_with_chars s.toList pre.toList

/-- Python `c in s` for a single character. -/
def py_contains_char (s : String) (c : Char) : Bool := s.toList.contains c

/-- Python `len(s)`. -/
def py_len (s : String) : Nat := s.toList.length

/-- Python `s[n:]`. -/
def py_drop (s : String) (n : Nat) : String := String.mk (s.toList.drop n)

/-- Python `s[:-n]` (for `0 < n ≤ len`): drop the last `n` characters. -/
def py_drop_right (s : String) (n : Nat) : String :=
  String.mk (s.toList.take (s.toList.length - n))

/-- Python `s[-n:]` for `n ≥ 1`: the last `n` characters (all of `s` when
`n ≥ len`, matching Python). -/
def py_take_right (s : String) (n : Nat) : String :=
  String.mk (s.toList.drop (s.toList.length - n))

/-- Python `s.upper()` (ASCII, which is all the default dialect emits). -/
def py_upper (s : String) : String := String.mk (s.toList.map Char.toUpper)

/-- The text before and after the first occurrence of `sep` (`none` when
`sep` does not occur). -/
def split_first_chars : List Char → List Char → Option (List Char × List Char)
  | [], _ => none
  | c :: rest, sep =>
    if ¬ sep.isEmpty ∧ starts_with_chars (c :: rest) sep then
      some ([], (c :: rest).drop sep.length)
    else
      match split_first_chars rest sep with
      | none => none
      | some (pre, post) => some (c :: pre, post)

/-- Python `s.split(sep, 1)`: the text before the first separator and the
text after it (equal to `s` and `""` when the separator is absent). -/
def split1 (s sep : String) : String × String :=
  match split_first_chars s.toList sep.toList with
  | none => (s, "")
  | some (pre, post) => (String.mk pre, String.mk post)

/-- Python `pat in s` (substring occurrence). -/
def str_contains (s pat : String) : Bool :=
  (split_first_chars s.toList pat.toList).isSome

/-- One pass of Python `s.replace(old, new)` (all non-overlapping
occurrences, left to right), with an explicit character budget making the
recursion structural. -/
def replace_aux : Nat → List Char → List Char → List Char → List Char
  | 0, cs, _, _ => cs
  | n + 1, cs, old, new =>
    match cs with
    | [] => []
    | c :: rest =>
      if ¬ old.isEmpty ∧ starts_with_chars cs old then
        new ++ replace_aux n (cs.drop old.length) old new
      else c :: replace_aux n rest old new

/-- Python `s.replace(old, new)` (the compiler only calls it with a
nonempty `old`). -/
def py_replace (s old new : String) : String :=
  String.mk (replace_aux s.toList.length s.toList old.toList new.toList)

/-! ## `parse_template_args` (source lines 215-282), character level -/

/-- First loop of `parse_template_args` (lines 217-228): find the index of
the opening `(`; a `)` seen first is an error; no `(` at all returns
`none` (lines 230-232 then yield the empty tuple). -/
def pta_find_open : List Char → Nat → Except Err (Option Nat)
  | [], _ => .ok none
  | c :: rest, i =>
    if c = ')' then
      .error (.ce "syntax error - unexpected ')' before '(' in a call expression")
    else if c = '(' then .ok (some i)
    else pta_find_open rest (i + 1)

/-- Second loop of `parse_template_args` (lines 234-265): scan from just
after the `(` tracking closure depth, splitting the argument texts at
top-level commas; running off the end is the never-closed error.  Returns
the raw (unstripped) argument slices and the index of the closing `)`. -/
def pta_scan : List Char → Nat → Nat → List Char → List String →
    Except Err (List String × Nat)
  | [], _, _, _, _ =>
    .error (.ce "unexpected end of file - template args expression never closed")
  | c :: rest, j, depth, cur, acc =>
    if c = '(' then pta_scan rest (j + 1) (depth + 1) (cur ++ [c]) acc
    else if c = ')' then
      if depth = 1 then .ok (acc ++ [String.mk cur], j)
      else pta_scan rest (j + 1) (depth - 1) (cur ++ [c]) acc
    else if c = ',' ∧ depth = 1 then
      pta_scan rest (j + 1) depth [] (acc ++ [String.mk cur])
    else pta_scan rest (j + 1) depth (cur ++ [c]) acc

/-- `parse_template_args` (source lines 215-282).  Returns the tuple of
stripped template argument texts and the number of characters consumed
(the index of the closing `)`, or `0` when the expression holds no
parenthesised list). -/
def parse_template_args (call_exp : String) : Except Err (List String × Nat) :=
  match pta_find_open call_exp.toList 0 with
  | .error e => .error e
  | .ok none => .ok ([], 0)
  | .ok (some i) =>
    match pta_scan (call_exp.toList.drop (i + 1)) (i + 1) 1 [] [] with
    | .error e => .error e
    | .ok (raw, j) =>
      let template_args := raw.map py_strip
      if template_args.length = 1 ∧ py_strip (template_args.headD "") = "" then
        .ok ([], j)
      else
        match template_args.findIdx? (fun a => py_strip a = "") with
        | some i =>
          .error (.ce ("syntax error - missing template argument at position " ++
            toString (i + 1)))
        | none => .ok (template_args, j)

/-! ## `parse_contition` (source lines 284-314) -/

/-- Second half of `parse_contition` (lines 299-314): match the condition
atom, which must carry its trailing space, and emit the dialect lexeme
prefixed by the already-resolved `IS `/`ISNOT ` text. -/
def parse_cond_atom (cfg : Config) (invert_text : String) (size_read : Nat)
    (orig : String) (cond_exp : String) : Except Err (String × Nat) :=
  if py_starts_with cond_exp "wall " then .ok (invert_text ++ cgkw cfg "wall", 5 + size_read)
  else if py_starts_with cond_exp "flag " then .ok (invert_text ++ cgkw cfg "flag", 5 + size_read)
  else if py_starts_with cond_exp "home " then .ok (invert_text ++ cgkw cfg "home", 5 + size_read)
  else if py_starts_with cond_exp "north " then .ok (invert_text ++ cgkw cfg "north", 6 + size_read)
  else if py_starts_with cond_exp "south " then .ok (invert_text ++ cgkw cfg "south", 6 + size_read)
  else if py_starts_with cond_exp "east " then .ok (invert_text ++ cgkw cfg "east", 5 + size_read)
  else if py_starts_with cond_exp "west " then .ok (invert_text ++ cgkw cfg "west", 5 + size_read)
  else .error (.ce ("syntax error - unknown condition \"" ++ py_strip orig ++ "\""))

/-- `parse_contition` (source lines 284-314): a condition is `is_<atom> `
or `not_<atom> `; returns the emitted TGT condition text and the number
of characters consumed. -/
def parse_contition (cfg : Config) (cond_exp : String) : Except Err (String × Nat) :=
  if py_starts_with cond_exp "is_" then
    parse_cond_atom cfg (cgkw cfg "is" ++ " ") 3 cond_exp (py_drop cond_exp 3)
  else if py_starts_with cond_exp "not_" then
    parse_cond_atom cfg (cgkw cfg "not" ++ " ") 4 cond_exp (py_drop cond_exp 4)
  else .error (.ce "syntax error - condition must start with 'is_' or 'not_'")

/-! ## `gen_comp_name` (source lines 407-411) -/

/-- Python `repr` of a quote-free string (the template argument texts the
compiler handles contain no quotes). -/
def py_str_repr (s : String) : String := "'" ++ s ++ "'"

/-- Python `repr` of a tuple of strings: `()`, `('x',)`, `('a', 'b')`. -/
def py_tuple_repr (xs : List String) : String :=
  match xs with
  | [] => "()"
  | [x] => "(" ++ py_str_repr x ++ ",)"
  | _ => "(" ++ String.intercalate ", " (xs.map py_str_repr) ++ ")"

/-- `gen_comp_name` (source lines 407-411): the deduplication key of an
instance packed into its emitted name.  Without `-g` the continuation and
template components are rendered through the two Python hashes; with `-g`
a human-readable form is rendered and its spaces removed. -/
def gen_comp_name (cfg : Config) (fn_proto : FnPrototypeAst)
    (call_loc : CallLocationAst) (seg_index : Nat) : String :=
  let seg_part := if seg_index = 0 then "" else "_seg" ++ toString seg_index
  if ¬ cfg.g then
    fn_proto.name ++ seg_part ++ "<ch" ++
      (match call_loc.callee_commit_dest_fn with
        | some c => toString (cfg.hashStr c.comp_name)
        | none => "-none") ++
      "-th" ++
      (if ¬ (call_loc.template_arg_values.length +
              call_loc.inherited_template_arg_values.length = 0) then
        toString (cfg.hashTup (call_loc.template_arg_values ++
          call_loc.inherited_template_arg_values))
      else "-none") ++ ">"
  else
    fn_proto.name ++ seg_part ++
      (("<commit-loc=" ++
        (match call_loc.callee_commit_dest_fn with
          | some c => c.comp_name
          | none => "none") ++
        "|template-args=" ++ py_tuple_repr call_loc.template_arg_values ++
        (if call_loc.inherited_template_arg_values.length > 0 then
          "+inherited=" ++ py_tuple_repr call_loc.inherited_template_arg_values
        else "") ++ ">").replace " " "")

/-! ## Small Python shims -/

/-- Python `'   ' * d` for the (possibly negative) nesting depth. -/
def indent (d : Int) : String := String.join (List.replicate d.toNat "   ")

/-- Value of a nonempty decimal digit string. -/
def dec_value (cs : List Char) : Nat :=
  cs.foldl (fun a c => a * 10 + (c.toNat - '0'.toNat)) 0

/-- Python `int(s, base=0)` on the literal forms reaching `compile_fn`'s
`for` handler: optional surrounding whitespace, optional single sign,
then a nonempty decimal digit run; a leading `0` is only legal when every
digit is `0` (base 0 rejects other leading zeros).  Base-prefixed and
underscore-grouped forms are not translated (they would fail compilation
one line later in the source regardless, by the exact-roundtrip slice on
`str(count)`). -/
def py_int_base0 (s : String) : Option Int :=
  let cs := strip_chars s.toList
  let (neg, ds) :=
    match cs with
    | '-' :: rest => (true, rest)
    | '+' :: rest => (false, rest)
    | _ => (false, cs)
  if ds.isEmpty then none
  else if ¬ ds.all Char.isDigit then none
  else if ds.headD '0' = '0' ∧ ¬ ds.all (· = '0') then none
  else
    let v : Int := Int.ofNat (dec_value ds)
    some (if neg then -v else v)

/-! ## Compiler state -/

/-- The local state of one `compile_fn` activation: the mutable locals of
source lines 442-457 (current segment text and depth, segment indices and
stack, slice tracking, the `is_last_end_if` map) together with the two
fields the activation mutates on its own `FnInstanceAst`
(`compiled_segments`, `owning_lambdas`). -/
structure CompSt where
  current_comp_segment : String
  current_comp_segment_depth : Int
  current_comp_segment_index : Nat
  next_comp_segment_index : Nat
  comp_segment_stack : List Nat
  slice_stack_scopes : List String
  poped_stack_slices : List String
  is_last_end_if : List (Int × Bool)
  compiled_segments : List String
  owning_lambdas : List String
deriving Repr

/-- `is_last_end_if` read with Python's
`not d in m or not m[d]` convention: absent keys read as `false`. -/
def get_last_end_if (m : List (Int × Bool)) (d : Int) : Bool :=
  (m.lookup d).getD false

/-- `is_last_end_if[d] = b`. -/
def set_last_end_if (m : List (Int × Bool)) (d : Int) (b : Bool) :
    List (Int × Bool) :=
  (d, b) :: m

/-- Well-formedness of the instance cache `instaciated_fns`: keys are
distinct (it is a Python dict) and every stored instance's `comp_name` is
its own key (lines 434-438 insert `fn` under `comp_name` right after
constructing it with that `comp_name`). -/
def CacheOk (c : List (String × FnInstanceAst)) : Prop :=
  c.Pairwise (fun a b => a.1 ≠ b.1) ∧ ∀ p ∈ c, p.2.comp_name = p.1

def lookup_none_forall {c : List (String × FnInstanceAst)} {k : String}
    (h : c.lookup k = none) : ∀ p ∈ c, p.1 ≠ k := by
  induction c with
  | nil => intro p hp; cases hp
  | cons q rest ih =>
    intro p hp
    by_cases hq : k = q.1
    · exfalso
      have hl : List.lookup k (q :: rest) = some q.2 := by
        simp [List.lookup, show (k == q.1) = true from beq_iff_eq.mpr hq]
      rw [hl] at h; cases h
    · have h' : List.lookup k rest = none := by
        simpa [List.lookup,
          show (k == q.1) = false from beq_eq_false_iff_ne.mpr hq] using h
      rcases List.mem_cons.mp hp with hpq | hpr
      · rw [hpq]; exact fun he => hq he.symm
      · exact ih h' p hpr

/-- The instance cache `instaciated_fns`, packaged with its dict
invariant. -/
structure Cache where
  entries : List (String × FnInstanceAst)
  ok : CacheOk entries

/-- Dict lookup, `instaciated_fns.get(k)` / `k in instaciated_fns`. -/
def Cache.lookup (c : Cache) (k : String) : Option FnInstanceAst :=
  c.entries.lookup k

/-- Dict insertion of a new key, `instaciated_fns[comp_name] = fn`
(source line 438, reached only when the key was absent). -/
def Cache.insert (c : Cache) (k : String) (v : FnInstanceAst)
    (hv : v.comp_name = k) (habs : c.lookup k = none) : Cache where
  entries := c.entries ++ [(k, v)]
  ok := by
    constructor
    · refine List.pairwise_append.mpr ⟨c.ok.1, List.pairwise_singleton _ _, ?_⟩
      intro a ha b hb
      simp at hb
      rw [hb]
      exact lookup_none_forall habs a ha
    · intro p hp
      rcases List.mem_append.mp hp with hp | hp
      · exact c.ok.2 p hp
      · simp at hp; rw [hp]; exact hv

/-- Writing the finished instance back over its stub entry: the Python
cache holds one mutable object, so mutating `fn` after line 438 is, in
this embedding, a keyed in-place update. -/
def Cache.writeback (c : Cache) (k : String) (v : FnInstanceAst)
    (hv : v.comp_name = k) : Cache where
  entries := c.entries.map (fun p => if p.1 = k then (k, v) else p)
  ok := by
    constructor
    · have : ∀ p : String × FnInstanceAst,
        (if p.1 = k then (k, v) else p).1 = p.1 := by
        intro p; by_cases h : p.1 = k <;> simp [h]
      refine List.Pairwise.map _ ?_ c.ok.1
      intro a b hab
      rw [this a, this b]; exact hab
    · intro p hp
      rcases List.mem_map.mp hp with ⟨q, _, hq⟩
      by_cases h : q.1 = k
      · rw [if_pos h] at hq; rw [← hq]; exact hv
      · rw [if_neg h] at hq; rw [← hq]
        exact c.ok.2 q (by assumption)

/-- The empty cache. -/
def Cache.empty : Cache := ⟨[], List.Pairwise.nil, by intro p hp; cases hp⟩

/-- The process-wide compiler state: the prototype registry
(`defined_fn_prototypes`), the instance cache (`instaciated_fns`), the
output buffer (`output_source`) and the warnings the diagnostics sink has
accepted. -/
structure GState where
  defined_fn_prototypes : List (String × FnPrototypeAst)
  instaciated_fns : Cache
  output_source : String
  warnings : List String

/-- The state at process start. -/
def initGState : GState :=
  { defined_fn_prototypes := []
    instaciated_fns := Cache.empty
    output_source := ""
    warnings := [] }

/-- `warn_print` (source lines 138-156): under `-W err` a warning is a
`CompileError`; under `-W none` it is dropped; otherwise it is rendered
(recorded here). -/
def warn_print (cfg : Config) (msg : String) (gst : GState) : Except Err GState :=
  if cfg.warning_level = 2 then .error (.ce msg)
  else if cfg.warning_level = 0 then .ok gst
  else .ok { gst with warnings := gst.warnings ++ [msg] }

/-- The two-branch store into `fn.compiled_segments` used at lines
702-705, 856-859 and 892-895: overwrite the slot when the list is long
enough, otherwise `append` (Python appends at the end). -/
def storeSegment (segs : List String) (i : Nat) (s : String) : List String :=
  if segs.length > i then segs.set i s else segs ++ [s]

/-- The generic `}` handler (source lines 681-694): decrement the depth,
then close with `END` - or with `END, ELSE` and `END` when the block
being closed was an `if` (`is_last_end_if` at the new depth). -/
def close_block (cfg : Config) (st : CompSt) : CompSt :=
  let d := st.current_comp_segment_depth - 1
  if ¬ get_last_end_if st.is_last_end_if d then
    { st with current_comp_segment_depth := d
              current_comp_segment :=
                st.current_comp_segment ++ indent d ++ cgkw cfg "end" ++ "\n" }
  else
    { st with current_comp_segment_depth := d
              current_comp_segment :=
                st.current_comp_segment ++ indent d ++ cgkw cfg "else" ++ "\n" ++
                  indent d ++ cgkw cfg "end" ++ "\n" }

/-- The `top_level_implicit_usage` computation of `parse_fn` (source
lines 384-401): an eligible prototype has no template parameters, is not
slicing, and is not a lambda. -/
def top_level_implicit_flag (template_args : List String) (is_slice : Bool)
    (is_lambda : Bool) : Bool :=
  if ¬ (template_args.length = 0) then false
  else if is_slice then false
  else if is_lambda then false
  else true

/-- The statement-header classification used at a `{` (source lines
515-585): a block whose header is none of the recognised forms is a
lambda definition. -/
def is_lambda_hdr (hdr : String) : Bool :=
  ¬ py_contains_char hdr '=' && ¬ py_starts_with hdr "if " && ¬ py_starts_with hdr "else" &&
  ¬ py_starts_with hdr "while " && ¬ py_starts_with hdr "for " && ¬ py_starts_with hdr "fn "

/-! ## Template substitution (source lines 466-471) -/

/-- Sequentially replace each `[param]` occurrence by its bound value,
in binding-list order, exactly as the `str.replace` loop does. -/
def subst_text (σ : List (String × String)) (s : String) : String :=
  σ.foldl (fun acc p => acc.replace ("[" ++ p.1 ++ "]") p.2) s

mutual

/-- Substitution over one item.  The Python substitutes the flat body
text before scanning; a lambda's braces are skipped by the scanner and
its prototype re-parsed from the original source (line 593), so lambda
block bodies are left untouched here while their headers and trailing
argument text (which the enclosing scan does consume) are substituted. -/
def subst_item (σ : List (String × String)) : Item → Item
  | .stmt acc => .stmt (subst_text σ acc)
  | .block hdr body post =>
    if is_lambda_hdr hdr then
      .block (subst_text σ hdr) body (subst_text σ post)
    else
      .block (subst_text σ hdr) (subst_items σ body) (subst_text σ post)

/-- Substitution over a body, item by item. -/
def subst_items (σ : List (String × String)) : List Item → List Item
  | [] => []
  | it :: rest => subst_item σ it :: subst_items σ rest

end

/-- The scan of the text between a lambda's closing `}` and its `;`
(source lines 618-643): whitespace collapses, any visible character
before the `(` of the template argument list is an error, and a `(` left
unclosed at the `;` is an error. -/
def lambda_post_scan : List Char → List Char → Except Err String
  | [], lacc =>
    if lacc.contains '(' ∧ ¬ lacc.contains ')' then
      .error (.ce "syntax error - unexpected ';' inside a template args closure")
    else .ok (String.mk lacc)
  | c :: rest, lacc =>
    if c = '\n' then lambda_post_scan rest (lacc ++ [' '])
    else if c.isWhitespace then
      if ¬ lacc.isEmpty ∧ ¬ (lacc.getLast? = some ' ') then
        lambda_post_scan rest (lacc ++ [' '])
      else lambda_post_scan rest lacc
    else if ¬ lacc.contains '(' ∧ ¬ (c = '(') then
      .error (.ce "syntax error - expected a ';' after a lambda definition")
    else lambda_post_scan rest (lacc ++ [c])

/-- The immutable surroundings of one `compile_fn` activation's body
scan: the configuration, the prototype being instantiated, and the call
location.  (The Python also reads `fn.name` and the two inherited-args
fields off the instance object; those are copies of `fn_proto.name` and
the `call_loc` fields, made at line 437.) -/
structure Ctx where
  cfg : Config
  fn_proto : FnPrototypeAst
  call_loc : CallLocationAst

/-- Append one emitted line at the current depth:
`''.join((segment, '   '*depth, text, '\n'))`. -/
def emit_line (st : CompSt) (text : String) : CompSt :=
  { st with current_comp_segment :=
      st.current_comp_segment ++ indent st.current_comp_segment_depth ++
        text ++ "\n" }

mutual

/-- `compile_fn` (source lines 414-959): memoised instance compilation.
Returns the cached instance on a key hit; otherwise inserts a stub
immediately (so recursive `recall` into the same key terminates), checks
template arity, substitutes template values, compiles the body items,
closes the final segment, stores it, writes the finished instance back
over its stub, and appends the reversed segments (uppercased) to the
output buffer. -/
def compile_fn : Nat → Config → FnPrototypeAst → CallLocationAst → GState →
    Except Err (FnInstanceAst × GState)
  | 0, _, _, _, _ => .error .fuel
  | fuel + 1, cfg, fn_proto, call_loc, gst =>
    -- lines 425-431
    let comp_name :=
      if fn_proto.top_level_implicit_usage then fn_proto.name
      else gen_comp_name cfg fn_proto call_loc 0
    -- lines 433-435
    match h : gst.instaciated_fns.lookup comp_name with
    | some inst => .ok (inst, gst)
    | none =>
      -- lines 437-438
      let fn : FnInstanceAst :=
        { name := fn_proto.name
          comp_name := comp_name
          owning_lambdas := []
          compiled_segments := []
          commit_fn := call_loc.callee_commit_dest_fn
          instance_template_args := call_loc.template_arg_values
          inherited_template_arg_values := call_loc.inherited_template_arg_values
          inherited_template_args := call_loc.inherited_template_args }
      let gst1 : GState :=
        { gst with instaciated_fns := gst.instaciated_fns.insert comp_name fn rfl h }
      -- lines 463-464
      if ¬ (fn_proto.template_args.length = call_loc.template_arg_values.length) then
        .error (.ce ("incorrect number of template args for fn \"" ++
          fn_proto.name ++ "\", expected " ++ toString fn_proto.template_args.length ++
          ", got " ++ toString call_loc.template_arg_values.length))
      -- lines 466-471; an `inherited` binding list longer than its value
      -- list would be an uncaught IndexError in the source
      else if call_loc.inherited_template_args.length >
          call_loc.inherited_template_arg_values.length then
        .error (.crash "IndexError in template substitution")
      else
        let σ := (fn_proto.template_args ++ call_loc.inherited_template_args).zip
          (call_loc.template_arg_values ++ call_loc.inherited_template_arg_values)
        let body := subst_items σ fn_proto.body
        -- lines 442-459
        let st0 : CompSt :=
          { current_comp_segment := comp_name ++ "\n"
            current_comp_segment_depth := 1
            current_comp_segment_index := 0
            next_comp_segment_index := 0
            comp_segment_stack := []
            slice_stack_scopes := []
            poped_stack_slices := []
            is_last_end_if := []
            compiled_segments := []
            owning_lambdas := [] }
        match compile_items fuel { cfg := cfg, fn_proto := fn_proto, call_loc := call_loc }
            body st0 gst1 with
        | .error e => .error e
        | .ok (st, gst2) =>
          -- the fn-ending `}` (lines 681-707)
          let st := close_block cfg st
          if ¬ (st.slice_stack_scopes = []) then
            .error (.ce "stack slice(s) were not poped before ending scope! No tracked slices must exist at the end of a scope")
          else
            let segs := storeSegment st.compiled_segments
              st.current_comp_segment_index (st.current_comp_segment ++ "\n")
            -- lines 951-959
            let fn2 : FnInstanceAst :=
              { fn with compiled_segments := segs.reverse
                        owning_lambdas := st.owning_lambdas }
            let gst3 : GState :=
              { gst2 with
                instaciated_fns := gst2.instaciated_fns.writeback comp_name fn2 rfl
                output_source := gst2.output_source ++
                  String.join ((segs.reverse).map py_upper) }
            .ok (fn2, gst3)

termination_by structural fuel => fuel

/-- The scan loop over the items of a body (the `while i < len(fn_src)`
of lines 481-946, at item granularity). -/
def compile_items : Nat → Ctx → List Item → CompSt → GState →
    Except Err (CompSt × GState)
  | 0, _, _, _, _ => .error .fuel
  | _ + 1, _, [], st, gst => .ok (st, gst)
  | fuel + 1, ctx, it :: rest, st, gst =>
    match compile_item fuel ctx it st gst with
    | .error e => .error e
    | .ok (st, gst) => compile_items fuel ctx rest st gst

termination_by structural fuel => fuel

/-- One item: a `;`-flushed statement (lines 709-945) or a `{`-opened
block (lines 515-679) followed by its matching `}` (lines 681-694). -/
def compile_item : Nat → Ctx → Item → CompSt → GState →
    Except Err (CompSt × GState)
  | 0, _, _, _, _ => .error .fuel
  | fuel + 1, ctx, .stmt acc, st, gst => compile_stmt fuel ctx acc st gst
  | fuel + 1, ctx, .block hdr body post, st, gst =>
    if py_contains_char hdr '=' then
      -- lines 520-522: slice assignment to a block is an unfinished TODO -
      -- the header is ignored and the depth is not incremented, but the
      -- matching `}` still runs the generic close
      match compile_items fuel ctx body st gst with
      | .error e => .error e
      | .ok (st, gst) => .ok (close_block ctx.cfg st, gst)
    else if py_starts_with hdr "if " then
      -- lines 523-534
      let acc := py_drop hdr 3
      match parse_contition ctx.cfg acc with
      | .error e => .error e
      | .ok (cond, consumed) =>
        let acc := py_drop acc consumed
        if ¬ (py_strip acc = "") then
          .error (.ce "syntax error - expected a '\x7b' after an if statement")
        else
          let st' :=
            { st with
              current_comp_segment := st.current_comp_segment ++
                indent st.current_comp_segment_depth ++
                cgkw ctx.cfg "if" ++ " " ++ cond ++ "\n"
              is_last_end_if :=
                set_last_end_if st.is_last_end_if st.current_comp_segment_depth true
              current_comp_segment_depth := st.current_comp_segment_depth + 1 }
          match compile_items fuel ctx body st' gst with
          | .error e => .error e
          | .ok (st, gst) => .ok (close_block ctx.cfg st, gst)
    else if py_starts_with hdr "else" then
      -- lines 536-549
      let acc := py_drop hdr 4
      if ¬ get_last_end_if st.is_last_end_if st.current_comp_segment_depth ∨
          ¬ (py_len st.current_comp_segment > py_len (cgkw ctx.cfg "end") + 1) ∨
          ¬ (py_take_right st.current_comp_segment (py_len (cgkw ctx.cfg "end") + 1) =
              cgkw ctx.cfg "end" ++ "\n") then
        .error (.ce "syntax error - else statements can be only defined after an if")
      else if ¬ (py_strip acc = "") then
        .error (.ce "syntax error - expected a '\x7b' after an else statement")
      else
        let st' :=
          { st with
            current_comp_segment := py_drop_right st.current_comp_segment
              ((py_len (cgkw ctx.cfg "end") + 1) +
                3 * st.current_comp_segment_depth.toNat)
            is_last_end_if :=
              set_last_end_if st.is_last_end_if st.current_comp_segment_depth false
            current_comp_segment_depth := st.current_comp_segment_depth + 1 }
        match compile_items fuel ctx body st' gst with
        | .error e => .error e
        | .ok (st, gst) => .ok (close_block ctx.cfg st, gst)
    else if py_starts_with hdr "while " then
      -- lines 551-562
      let acc := py_drop hdr 6
      match parse_contition ctx.cfg acc with
      | .error e => .error e
      | .ok (cond, consumed) =>
        let acc := py_drop acc consumed
        if ¬ (py_strip acc = "") then
          .error (.ce "syntax error - expected a '\x7b' after a while statement")
        else
          let st' :=
            { st with
              current_comp_segment := st.current_comp_segment ++
                indent st.current_comp_segment_depth ++
                cgkw ctx.cfg "while" ++ " " ++ cond ++ "\n"
              is_last_end_if :=
                set_last_end_if st.is_last_end_if st.current_comp_segment_depth false
              current_comp_segment_depth := st.current_comp_segment_depth + 1 }
          match compile_items fuel ctx body st' gst with
          | .error e => .error e
          | .ok (st, gst) => .ok (close_block ctx.cfg st, gst)
    else if py_starts_with hdr "for " then
      -- lines 564-581
      let acc := py_drop hdr 4
      match py_int_base0 acc with
      | none =>
        .error (.ce ("for loop count \"" ++ py_strip acc ++
          "\" is not convertible to an integer"))
      | some count =>
        let rest := py_drop acc (py_len (toString count))
        if ¬ (py_strip rest = "") then
          .error (.ce "syntax error - expected a '\x7b' after a for statement")
        else
          match (if count > ctx.cfg.max_loop_count then
              warn_print ctx.cfg ("for loop count " ++ toString count ++
                " is greater than the safe maximum of " ++
                toString ctx.cfg.max_loop_count) gst
            else .ok gst) with
          | .error e => .error e
          | .ok gst =>
            let st' :=
              { st with
                current_comp_segment := st.current_comp_segment ++
                  indent st.current_comp_segment_depth ++
                  cgkw ctx.cfg "for" ++ " " ++ toString count ++
                  cgkw ctx.cfg "for-suffix" ++ "\n"
                is_last_end_if :=
                  set_last_end_if st.is_last_end_if st.current_comp_segment_depth false
                current_comp_segment_depth := st.current_comp_segment_depth + 1 }
            match compile_items fuel ctx body st' gst with
            | .error e => .error e
            | .ok (st, gst) => .ok (close_block ctx.cfg st, gst)
    else if py_starts_with hdr "fn " then
      -- lines 583-584
      .error (.ce "syntax error - fn definitions are not allowed inside fn bodies (did you forget a '\x7d'?)")
    else
      -- lambda definition (lines 585-677).  The lambda's braces are
      -- consumed by the skip of lines 597-614, so no close runs here.
      let fn_name := ctx.fn_proto.name ++ "_lambda_n" ++
        toString st.owning_lambdas.length
      match (match gst.defined_fn_prototypes.lookup fn_name with
        | some p => .ok (p, gst)
        | none =>
          -- `parse_fn` with a lambda owner (lines 316-335, 384-403):
          -- template params come off the definition line, the slice flag
          -- off the owner's continuation, never top-level-implicit
          match parse_template_args hdr with
          | .error e => .error e
          | .ok (tem_args, _) =>
            let lam : FnPrototypeAst :=
              { name := fn_name
                template_args := tem_args
                top_level_implicit_usage := top_level_implicit_flag tem_args
                  ctx.call_loc.callee_commit_dest_fn.isSome true
                is_slice_valid := ctx.call_loc.callee_commit_dest_fn.isSome
                body := body }
            .ok (lam, { gst with defined_fn_prototypes :=
              gst.defined_fn_prototypes ++ [(fn_name, lam)] }) :
          Except Err (FnPrototypeAst × GState)) with
      | .error e => .error e
      | .ok (lambda_proto, gst) =>
        match lambda_post_scan post.toList [] with
        | .error e => .error e
        | .ok l_acc =>
          -- lines 646-656
          match parse_template_args l_acc with
          | .error e => .error e
          | .ok (tem_args, read_size) =>
            let l_acc :=
              if ¬ (read_size = 0) then py_drop l_acc (read_size + 1)
              else py_drop l_acc 1
            if ¬ (py_strip l_acc = "") then
              .error (.ce "syntax error - expected a ';' after a lambda definition")
            else
              -- lines 658-676
              let lambda_call_loc : CallLocationAst :=
                { caller_fn_name := ctx.fn_proto.name
                  callee_fn_name := lambda_proto.name
                  template_arg_values := tem_args
                  inherited_template_arg_values :=
                    ctx.call_loc.template_arg_values ++
                    ctx.call_loc.inherited_template_arg_values
                  inherited_template_args :=
                    ctx.fn_proto.template_args ++
                    ctx.call_loc.inherited_template_args
                  callee_commit_dest_fn := ctx.call_loc.callee_commit_dest_fn }
              match compile_fn fuel ctx.cfg lambda_proto lambda_call_loc gst with
              | .error e => .error e
              | .ok (lambda_fn_instance, gst) =>
                .ok ({ (emit_line st lambda_fn_instance.comp_name) with
                  owning_lambdas :=
                    st.owning_lambdas ++ [lambda_fn_instance.comp_name] }, gst)

termination_by structural fuel => fuel

/-- One `;`-flushed statement accumulator (source lines 709-945),
dispatched by the `elif` chain of the source in its exact order. -/
def compile_stmt : Nat → Ctx → String → CompSt → GState →
    Except Err (CompSt × GState)
  | 0, _, _, _, _ => .error .fuel
  | fuel + 1, ctx, acc0, st, gst =>
    let acc := py_strip acc0
    -- lines 714-715
    if acc = "++" then
      .ok (emit_line st ((ctx.cfg.builtin_fns.lookup "place").getD ""), gst)
    -- lines 716-717
    else if acc = "--" then
      .ok (emit_line st ((ctx.cfg.builtin_fns.lookup "pick").getD ""), gst)
    -- lines 718-719
    else if acc = "" then .ok (st, gst)
    -- lines 720-721
    else if (ctx.cfg.builtin_fns.lookup acc).isSome then
      .ok (emit_line st ((ctx.cfg.builtin_fns.lookup acc).getD ""), gst)
    -- lines 722-726
    else if py_starts_with acc "no_op" then
      if ¬ (acc = "no_op") then
        .error (.ce "syntax error - expected a ';' after a no_op keyword")
      else .ok (st, gst)
    -- lines 727-761
    else if py_starts_with acc "recall" then
      match parse_template_args acc with
      | .error e => .error e
      | .ok (tem_args, size_read) =>
        let acc := if size_read = 0 then py_drop acc 6 else py_drop acc (size_read + 1)
        if ¬ (py_strip acc = "") then
          .error (.ce "syntax error - expected a ';' after a recall keyword")
        else
          let recall_loc : CallLocationAst :=
            { caller_fn_name := ctx.fn_proto.name
              callee_fn_name := ctx.fn_proto.name
              template_arg_values :=
                if tem_args.length = 0 then ctx.call_loc.template_arg_values
                else tem_args
              inherited_template_arg_values :=
                ctx.call_loc.inherited_template_arg_values
              inherited_template_args := ctx.call_loc.inherited_template_args
              callee_commit_dest_fn := ctx.call_loc.callee_commit_dest_fn }
          match compile_fn fuel ctx.cfg ctx.fn_proto recall_loc gst with
          | .error e => .error e
          | .ok (recall_fn_instance, gst) =>
            match (if st.current_comp_segment_depth = 1 then
                warn_print ctx.cfg "recall most likely causes an infinite loop" gst
              else .ok gst) with
            | .error e => .error e
            | .ok gst => .ok (emit_line st recall_fn_instance.comp_name, gst)
    -- lines 762-776
    else if py_starts_with acc "commit" then
      if ¬ ctx.fn_proto.is_slice_valid then
        .error (.ce "cannot use the commit keyword inside a non-slice fn (see numka slice fn docs)")
      else
        match ctx.call_loc.callee_commit_dest_fn with
        | some dest =>
          let acc := py_strip (py_drop acc 6)
          if ¬ (acc = "") then
            .error (.ce "syntax error - expected a ';' after a commit keyword")
          else .ok (emit_line st dest.comp_name, gst)
        | none =>
          match warn_print ctx.cfg
              ("commit keyword used while not pushing a stack slice, called from fn \"" ++
                ctx.call_loc.caller_fn_name ++ "\"") gst with
          | .error e => .error e
          | .ok gst => .ok (st, gst)
    -- lines 778-867: `<name> = push <callee>[(args)]`
    else if py_contains_char acc '=' then
      let exp := split1 acc "="
      let slice_name := py_strip exp.1
      if py_contains_char slice_name ' ' then
        .error (.ce "syntax error - stack slice names cannot contain spaces")
      else
        let acc := py_strip exp.2
        if py_starts_with acc "push " then
          let acc := py_drop acc 5
          if py_contains_char acc '(' ∧ ¬ py_contains_char acc ')' then
            .error (.ce "syntax error - unexpected ';' inside a template args closure")
          else
            match parse_template_args acc with
            | .error e => .error e
            | .ok (tem_args, size_read) =>
              match (if size_read = 0 then
                  if py_contains_char acc ' ' then
                    .error (.ce "syntax error - expected a ';' after a push fn call")
                  else .ok acc
                else
                  if ¬ (py_strip (py_drop acc (size_read + 1)) = "") then
                    .error (.ce "syntax error - expected a ';' after a push fn call")
                  else .ok (py_strip (split1 acc "(").1) : Except Err String) with
              | .error e => .error e
              | .ok acc =>
                -- line 807 (the message interpolates the callee text)
                if st.slice_stack_scopes.contains slice_name then
                  .error (.ce ("stack slice name \"" ++ acc ++ "\" already in use"))
                else if ¬ (st.current_comp_segment_depth = 1) then
                  .error (.ce "for now, stack slices can be only used on the root scope (outside of if, while, for, etc.)")
                else
                  -- lines 813-825
                  let old_segment_index := st.current_comp_segment_index
                  let next_idx := st.next_comp_segment_index + 1
                  let seg_comp_name := gen_comp_name ctx.cfg ctx.fn_proto ctx.call_loc next_idx
                  let commit_loc : CallableAst :=
                    { name := ctx.fn_proto.name ++ "[segment:" ++ toString next_idx ++ "]"
                      comp_name := seg_comp_name }
                  -- lines 827-834
                  match gst.defined_fn_prototypes.lookup acc with
                  | none =>
                    .error (.ce ("call to an undefined push fn \"" ++ acc ++ "\""))
                  | some callee_fn =>
                    if ¬ callee_fn.is_slice_valid then
                      .error (.ce ("cannot push a non-slice fn \"" ++ acc ++ "\""))
                    else
                      -- lines 836-846
                      let push_loc : CallLocationAst :=
                        { caller_fn_name := ctx.fn_proto.name
                          callee_fn_name := acc
                          template_arg_values := tem_args
                          inherited_template_arg_values := []
                          inherited_template_args := []
                          callee_commit_dest_fn := some commit_loc }
                      match compile_fn fuel ctx.cfg callee_fn push_loc gst with
                      | .error e => .error e
                      | .ok (push_fn, gst) =>
                        -- lines 848-864
                        let seg := st.current_comp_segment ++
                          indent st.current_comp_segment_depth ++
                          push_fn.comp_name ++ "\n"
                        let segs := storeSegment st.compiled_segments
                          old_segment_index seg
                        .ok ({ st with
                          current_comp_segment := seg_comp_name ++ "\n"
                          current_comp_segment_depth := 1
                          current_comp_segment_index := next_idx
                          next_comp_segment_index := next_idx
                          comp_segment_stack :=
                            old_segment_index :: st.comp_segment_stack
                          slice_stack_scopes :=
                            slice_name :: st.slice_stack_scopes
                          poped_stack_slices :=
                            st.poped_stack_slices.erase slice_name
                          compiled_segments := segs }, gst)
        else
          .error (.ce "syntax error - stack slice assignment must use the 'push' keyword")
    -- lines 869-901: `pop <name>`
    else if py_starts_with acc "pop " then
      let acc := py_strip (py_drop acc 4)
      if py_contains_char acc ' ' then
        .error (.ce "syntax error - expected ';' after a pop")
      else if st.poped_stack_slices.contains acc then
        .error (.ce ("stack slice \"" ++ acc ++ "\" already poped"))
      else if st.slice_stack_scopes.length = 0 ∨
          ¬ st.slice_stack_scopes.contains acc then
        .error (.ce ("unknown stack slice \"" ++ acc ++ "\""))
      else if ¬ (st.slice_stack_scopes.headD "" = acc) then
        .error (.ce ("only the last pushed stack slice (here it's slice \"" ++
          st.slice_stack_scopes.headD "" ++ "\") can be poped"))
      else if ¬ (st.current_comp_segment_depth = 1) then
        .error (.ce "for now, stack slices can be only used on the root scope (outside of if, while, for, etc.)")
      else
        -- lines 887-901 (the `gen_comp_name` at line 898 is a dead store)
        let segs := storeSegment st.compiled_segments
          st.current_comp_segment_index
          (st.current_comp_segment ++ cgkw ctx.cfg "end" ++ "\n\n")
        match st.comp_segment_stack with
        | [] => .error (.crash "IndexError: pop from empty list")
        | prev :: stack_rest =>
          match segs[prev]? with
          | none => .error (.crash "IndexError: list index out of range")
          | some seg =>
            .ok ({ st with
              current_comp_segment := seg
              current_comp_segment_depth := 1
              current_comp_segment_index := prev
              comp_segment_stack := stack_rest
              slice_stack_scopes := st.slice_stack_scopes.tail
              poped_stack_slices := st.poped_stack_slices ++ [acc]
              compiled_segments := segs }, gst)
    -- lines 903-904
    else if py_starts_with acc "if" ∨ py_starts_with acc "while" ∨ py_starts_with acc "for" then
      .error (.ce "syntax error - if, while, and for statements do not support bracket-less forms")
    -- lines 905-940: a plain call
    else
      if py_contains_char acc '(' ∧ ¬ py_contains_char acc ')' then
        .error (.ce "syntax error - unexpected ';' inside a template args closure")
      else
        match parse_template_args acc with
        | .error e => .error e
        | .ok (tem_args, size_read) =>
          match (if size_read = 0 then
              if py_contains_char acc ' ' then
                .error (.ce "syntax error - expected a ';' after a fn call")
              else .ok acc
            else
              if ¬ (py_strip (py_drop acc (size_read + 1)) = "") then
                .error (.ce "syntax error - expected a ';' after a fn call")
              else .ok (py_strip (split1 acc "(").1) : Except Err String) with
          | .error e => .error e
          | .ok acc =>
            match gst.defined_fn_prototypes.lookup acc with
            | none => .error (.ce ("call to an undefined fn \"" ++ acc ++ "\""))
            | some callee_fn =>
              -- lines 928-940: the callee may commit for the current push
              -- only when it is itself a slicing fn
              let fn_call_loc : CallLocationAst :=
                { caller_fn_name := ctx.fn_proto.name
                  callee_fn_name := acc
                  template_arg_values := tem_args
                  inherited_template_arg_values := []
                  inherited_template_args := []
                  callee_commit_dest_fn :=
                    if callee_fn.is_slice_valid then
                      ctx.call_loc.callee_commit_dest_fn
                    else none }
              match compile_fn fuel ctx.cfg callee_fn fn_call_loc gst with
              | .error e => .error e
              | .ok (callee_fn_instance, gst) =>
                .ok (emit_line st callee_fn_instance.comp_name, gst)

termination_by structural fuel => fuel

end

/-! ## Top level: `parse_fn` for declarations and `compile_source_file` -/

/-- A top-level `fn` declaration as the prototype parser's header pass
delivers it: the name text before any `(`, the parsed template parameter
list, the presence of the trailing `slicing` marker, and the body items.
(Brace matching, comment stripping and line trimming, lines 337-382, are
the file-reading half of `parse_fn` and live outside the embedded
fragment.) -/
structure FnDef where
  name : String
  template_args : List String
  is_slicing : Bool
  body : List Item

/-- `parse_fn` for a top-level declaration (source lines 316-405, minus
the text scanning): name validation, redefinition check, the
`top_level_implicit_usage` computation, and registration. -/
def parse_fn_top (cfg : Config) (d : FnDef) (gst : GState) :
    Except Err (FnPrototypeAst × GState) :=
  -- lines 329-332
  if py_contains_char d.name ' ' then
    .error (.ce "syntax error - fn name cannot contain spaces")
  else if cfg.builtit_reserved.contains d.name ∨
      (cfg.builtin_fns.map Prod.snd).contains (py_upper d.name) ∨
      (cfg.builtin_cg_keywords.map Prod.snd).contains (py_upper d.name) then
    .error (.ce ("\"" ++ d.name ++ "\" is a reserved keyword by karel-lang"))
  else
    -- lines 368-369
    match gst.defined_fn_prototypes.lookup d.name with
    | some _ => .error (.ce ("redefinition of fn \"" ++ d.name ++ "\""))
    | none =>
      -- lines 384-403
      let fn : FnPrototypeAst :=
        { name := d.name
          template_args := d.template_args
          top_level_implicit_usage :=
            top_level_implicit_flag d.template_args d.is_slicing false
          is_slice_valid := d.is_slicing
          body := d.body }
      .ok (fn, { gst with defined_fn_prototypes :=
        gst.defined_fn_prototypes ++ [(d.name, fn)] })

/-- The `fn`-declaration arm of `compile_source_file`'s top-level loop
(source lines 1011-1029): parse each prototype in file order and compile
the `top_level_implicit_usage` ones eagerly under a top-level call
location. -/
def compile_source_file : Nat → Config → List FnDef → GState → Except Err GState
  | 0, _, _, _ => .error .fuel
  | _ + 1, _, [], gst => .ok gst
  | fuel + 1, cfg, d :: rest, gst =>
    match parse_fn_top cfg d gst with
    | .error e => .error e
    | .ok (fn, gst) =>
      if fn.top_level_implicit_usage then
        let call_loc : CallLocationAst :=
          { caller_fn_name := "(top-level)"
            callee_fn_name := fn.name
            template_arg_values := []
            inherited_template_arg_values := []
            inherited_template_args := []
            callee_commit_dest_fn := none }
        match compile_fn fuel cfg fn call_loc gst with
        | .error e => .error e
        | .ok (_, gst) => compile_source_file fuel cfg rest gst
      else compile_source_file fuel cfg rest gst

/-! ## Run extractors and concrete programs -/

/-- One compiler run from the initial process state. -/
def run_compile (fuel : Nat) (cfg : Config) (prog : List FnDef) : Except Err GState :=
  compile_source_file fuel cfg prog initGState

/-- The final output buffer and accepted warnings of a successful run. -/
def run_output (fuel : Nat) (cfg : Config) (prog : List FnDef) :
    Option (String × List String) :=
  match run_compile fuel cfg prog with
  | .error _ => none
  | .ok g => some (g.output_source, g.warnings)

/-- The (key, emitted name) pairs of the instance cache after a
successful run. -/
def run_cache_names (fuel : Nat) (cfg : Config) (prog : List FnDef) :
    Option (List (String × String)) :=
  match run_compile fuel cfg prog with
  | .error _ => none
  | .ok g => some (g.instaciated_fns.entries.map
      (fun p : String × FnInstanceAst => (p.1, p.2.comp_name)))

/-- A cached instance of a successful run, by cache key. -/
def run_instance (fuel : Nat) (cfg : Config) (prog : List FnDef)
    (key : String) : Option FnInstanceAst :=
  match run_compile fuel cfg prog with
  | .error _ => none
  | .ok g => g.instaciated_fns.lookup key

/-- The error of a failed run. -/
def run_error (fuel : Nat) (cfg : Config) (prog : List FnDef) : Option Err :=
  match run_compile fuel cfg prog with
  | .error e => some e
  | .ok _ => none

/-- The default configuration with both hash parameters constantly `0`
(one concrete process seed). -/
def cfg0 : Config := mkConfig (fun _ => 0) (fun _ => 0)

/-- The default configuration under a different process seed: both hash
parameters constantly `1`; every command-line flag and dialect table is
identical to `cfg0`. -/
def cfg1 : Config := mkConfig (fun _ => 1) (fun _ => 1)

/-- `fn loop { recall; }` -/
def prog_loop : List FnDef :=
  [{ name := "loop", template_args := [], is_slicing := false,
     body := [.stmt "recall"] }]

/-- `fn over_wall slicing { while not_wall { step; } commit; }
fn main { s = push over_wall; pop s; step; }` -/
def prog_over_wall : List FnDef :=
  [{ name := "over_wall", template_args := [], is_slicing := true,
     body := [.block "while not_wall " [.stmt "step"] "", .stmt "commit"] },
   { name := "main", template_args := [], is_slicing := false,
     body := [.stmt "s = push over_wall", .stmt "pop s", .stmt "step"] }]

/-- `fn main { commit; }` - a `commit` inside a non-slicing prototype. -/
def prog_commit_nonslice : List FnDef :=
  [{ name := "main", template_args := [], is_slicing := false,
     body := [.stmt "commit"] }]

/-- `fn f slicing { commit; } fn main { s = push f; pop s; s = push f;
pop s; }` - the stack-slice name `s` is reused after being popped. -/
def prog_reuse_after_pop : List FnDef :=
  [{ name := "f", template_args := [], is_slicing := true,
     body := [.stmt "commit"] },
   { name := "main", template_args := [], is_slicing := false,
     body := [.stmt "s = push f", .stmt "pop s",
              .stmt "s = push f", .stmt "pop s"] }]

/-- `fn main { for -2 { step; } }` -/
def prog_for_neg : List FnDef :=
  [{ name := "main", template_args := [], is_slicing := false,
     body := [.block "for -2 " [.stmt "step"] ""] }]

/-- `fn f slicing { commit; no_op; } fn main { s = push f; pop s; }` -
the pushed body's last statement is a `no_op` after its `commit`. -/
def prog_commit_noop : List FnDef :=
  [{ name := "f", template_args := [], is_slicing := true,
     body := [.stmt "commit", .stmt "no_op"] },
   { name := "main", template_args := [], is_slicing := false,
     body := [.stmt "s = push f", .stmt "pop s"] }]

/-- `fn helper { step; }` - a top-level-implicit prototype nothing
calls. -/
def prog_helper : List FnDef :=
  [{ name := "helper", template_args := [], is_slicing := false,
     body := [.stmt "step"] }]

/-! ### Fixtures for the general statement-level theorems -/

/-- A non-slicing prototype with an empty body. -/
def proto_plain : FnPrototypeAst :=
  { name := "m", template_args := [], top_level_implicit_usage := true,
    is_slice_valid := false, body := [] }

/-- A slicing prototype with an empty body. -/
def proto_slicing : FnPrototypeAst :=
  { name := "m", template_args := [], top_level_implicit_usage := false,
    is_slice_valid := true, body := [] }

/-- A call location with no active continuation. -/
def loc_no_commit : CallLocationAst :=
  { caller_fn_name := "caller", callee_fn_name := "m",
    template_arg_values := [], callee_commit_dest_fn := none }

/-- A call location whose continuation is the callable `CSEG`. -/
def loc_commit : CallLocationAst :=
  { caller_fn_name := "caller", callee_fn_name := "m",
    template_arg_values := [],
    callee_commit_dest_fn := some { name := "c", comp_name := "CSEG" } }

/-- A fresh body-scan state, as `compile_fn` builds it for a segment
headed `m`. -/
def st_probe : CompSt :=
  { current_comp_segment := "m\n", current_comp_segment_depth := 1,
    current_comp_segment_index := 0, next_comp_segment_index := 0,
    comp_segment_stack := [], slice_stack_scopes := [],
    poped_stack_slices := [], is_last_end_if := [],
    compiled_segments := [], owning_lambdas := [] }

/-- `st_probe` with the slice name `s` still active (pushed and not yet
popped). -/
def st_active_s : CompSt := { st_probe with slice_stack_scopes := ["s"] }

/-- The default instance record, used only as the unreachable fallback of
the extractors below. -/
def inst_fallback : FnInstanceAst :=
  { name := "", comp_name := "", owning_lambdas := [], compiled_segments := [],
    commit_fn := none, instance_template_args := [],
    inherited_template_arg_values := [], inherited_template_args := [] }

/-- The top-level call location `compile_source_file` builds for an
eagerly compiled prototype (source lines 1017-1025). -/
def loc_top (callee : String) : CallLocationAst :=
  { caller_fn_name := "(top-level)", callee_fn_name := callee,
    template_arg_values := [], inherited_template_arg_values := [],
    inherited_template_args := [], callee_commit_dest_fn := none }

/-- The declaration of `fn helper { step; }`. -/
def helper_def : FnDef :=
  { name := "helper", template_args := [], is_slicing := false,
    body := [.stmt "step"] }

/-- The parsed prototype of `helper_def`. -/
def helper_proto : FnPrototypeAst :=
  { name := "helper", template_args := [], top_level_implicit_usage := true,
    is_slice_valid := false, body := [.stmt "step"] }

/-- The result of parsing `helper_def` from the initial state. -/
def helper_parse_out : FnPrototypeAst × GState :=
  match parse_fn_top cfg0 helper_def initGState with
  | .ok o => o
  | .error _ => (helper_proto, initGState)

/-- The instance compiled for `helper_proto` at top level. -/
def helper_inst : FnInstanceAst :=
  match compile_fn 8 cfg0 helper_proto (loc_top "helper") initGState with
  | .ok (i, _) => i
  | .error _ => inst_fallback

/-- The state `helper_inst`'s compilation leaves behind. -/
def helper_gst : GState :=
  match compile_fn 8 cfg0 helper_proto (loc_top "helper") initGState with
  | .ok (_, g) => g
  | .error _ => initGState

/-- The final state of the successful `prog_reuse_after_pop` run, whose
cache holds two instances. -/
def gst_reuse : GState :=
  match run_compile 64 cfg0 prog_reuse_after_pop with
  | .ok g => g
  | .error _ => initGState

/-- The first cache entry of `gst_reuse` (the `main` instance). -/
def reuse_entry0 : String × FnInstanceAst :=
  gst_reuse.instaciated_fns.entries.getD 0 ("", inst_fallback)

/-- The second cache entry of `gst_reuse` (the pushed `f` monomorph). -/
def reuse_entry1 : String × FnInstanceAst :=
  gst_reuse.instaciated_fns.entries.getD 1 ("", inst_fallback)

/-! ## Branch views of the statement and item compilers

`compile_stmt` and `compile_item` are single large dispatches; for the
segment-accounting development each branch is restated as its own
definition, definitionally equal to the corresponding branch of the
original (the bridge theorems below are all by `rfl`). -/

/-- The `recall` branch of `compile_stmt` (source lines 727-761), on the
already-stripped accumulator. -/
def stmt_recall (fuel : Nat) (ctx : Ctx) (acc : String) (st : CompSt)
    (gst : GState) : Except Err (CompSt × GState) :=
  match parse_template_args acc with
  | .error e => .error e
  | .ok (tem_args, size_read) =>
    let acc := if size_read = 0 then py_drop acc 6 else py_drop acc (size_read + 1)
    if ¬ (py_strip acc = "") then
      .error (.ce "syntax error - expected a ';' after a recall keyword")
    else
      let recall_loc : CallLocationAst :=
        { caller_fn_name := ctx.fn_proto.name
          callee_fn_name := ctx.fn_proto.name
          template_arg_values :=
            if tem_args.length = 0 then ctx.call_loc.template_arg_values
            else tem_args
          inherited_template_arg_values :=
            ctx.call_loc.inherited_template_arg_values
          inherited_template_args := ctx.call_loc.inherited_template_args
          callee_commit_dest_fn := ctx.call_loc.callee_commit_dest_fn }
      match compile_fn fuel ctx.cfg ctx.fn_proto recall_loc gst with
      | .error e => .error e
      | .ok (recall_fn_instance, gst) =>
        match (if st.current_comp_segment_depth = 1 then
            warn_print ctx.cfg "recall most likely causes an infinite loop" gst
          else .ok gst) with
        | .error e => .error e
        | .ok gst => .ok (emit_line st recall_fn_instance.comp_name, gst)

/-- The `commit` branch of `compile_stmt` (source lines 762-776). -/
def stmt_commit (ctx : Ctx) (acc : String) (st : CompSt) (gst : GState) :
    Except Err (CompSt × GState) :=
  if ¬ ctx.fn_proto.is_slice_valid then
    .error (.ce "cannot use the commit keyword inside a non-slice fn (see numka slice fn docs)")
  else
    match ctx.call_loc.callee_commit_dest_fn with
    | some dest =>
      let acc := py_strip (py_drop acc 6)
      if ¬ (acc = "") then
        .error (.ce "syntax error - expected a ';' after a commit keyword")
      else .ok (emit_line st dest.comp_name, gst)
    | none =>
      match warn_print ctx.cfg
          ("commit keyword used while not pushing a stack slice, called from fn \"" ++
            ctx.call_loc.caller_fn_name ++ "\"") gst with
      | .error e => .error e
      | .ok gst => .ok (st, gst)

/-- The slice-allocation tail of the `push` branch (source lines
807-867), after the callee text has been resolved. -/
def stmt_push_resolved (fuel : Nat) (ctx : Ctx) (slice_name : String)
    (tem_args : List String) (acc : String) (st : CompSt) (gst : GState) :
    Except Err (CompSt × GState) :=
  if st.slice_stack_scopes.contains slice_name then
    .error (.ce ("stack slice name \"" ++ acc ++ "\" already in use"))
  else if ¬ (st.current_comp_segment_depth = 1) then
    .error (.ce "for now, stack slices can be only used on the root scope (outside of if, while, for, etc.)")
  else
    let old_segment_index := st.current_comp_segment_index
    let next_idx := st.next_comp_segment_index + 1
    let seg_comp_name := gen_comp_name ctx.cfg ctx.fn_proto ctx.call_loc next_idx
    let commit_loc : CallableAst :=
      { name := ctx.fn_proto.name ++ "[segment:" ++ toString next_idx ++ "]"
        comp_name := seg_comp_name }
    match gst.defined_fn_prototypes.lookup acc with
    | none =>
      .error (.ce ("call to an undefined push fn \"" ++ acc ++ "\""))
    | some callee_fn =>
      if ¬ callee_fn.is_slice_valid then
        .error (.ce ("cannot push a non-slice fn \"" ++ acc ++ "\""))
      else
        let push_loc : CallLocationAst :=
          { caller_fn_name := ctx.fn_proto.name
            callee_fn_name := acc
            template_arg_values := tem_args
            inherited_template_arg_values := []
            inherited_template_args := []
            callee_commit_dest_fn := some commit_loc }
        match compile_fn fuel ctx.cfg callee_fn push_loc gst with
        | .error e => .error e
        | .ok (push_fn, gst) =>
          let seg := st.current_comp_segment ++
            indent st.current_comp_segment_depth ++
            push_fn.comp_name ++ "\n"
          let segs := storeSegment st.compiled_segments
            old_segment_index seg
          .ok ({ st with
            current_comp_segment := seg_comp_name ++ "\n"
            current_comp_segment_depth := 1
            current_comp_segment_index := next_idx
            next_comp_segment_index := next_idx
            comp_segment_stack :=
              old_segment_index :: st.comp_segment_stack
            slice_stack_scopes :=
              slice_name :: st.slice_stack_scopes
            poped_stack_slices :=
              st.poped_stack_slices.erase slice_name
            compiled_segments := segs }, gst)

/-- The `<name> = push <callee>` branch of `compile_stmt` (source lines
778-867). -/
def stmt_push (fuel : Nat) (ctx : Ctx) (acc : String) (st : CompSt)
    (gst : GState) : Except Err (CompSt × GState) :=
  let exp := split1 acc "="
  let slice_name := py_strip exp.1
  if py_contains_char slice_name ' ' then
    .error (.ce "syntax error - stack slice names cannot contain spaces")
  else
    let acc := py_strip exp.2
    if py_starts_with acc "push " then
      let acc := py_drop acc 5
      if py_contains_char acc '(' ∧ ¬ py_contains_char acc ')' then
        .error (.ce "syntax error - unexpected ';' inside a template args closure")
      else
        match parse_template_args acc with
        | .error e => .error e
        | .ok (tem_args, size_read) =>
          match (if size_read = 0 then
              if py_contains_char acc ' ' then
                .error (.ce "syntax error - expected a ';' after a push fn call")
              else .ok acc
            else
              if ¬ (py_strip (py_drop acc (size_read + 1)) = "") then
                .error (.ce "syntax error - expected a ';' after a push fn call")
              else .ok (py_strip (split1 acc "(").1) : Except Err String) with
          | .error e => .error e
          | .ok acc => stmt_push_resolved fuel ctx slice_name tem_args acc st gst
    else
      .error (.ce "syntax error - stack slice assignment must use the 'push' keyword")

/-- The `pop <name>` branch of `compile_stmt` (source lines 869-901). -/
def stmt_pop (ctx : Ctx) (acc : String) (st : CompSt) (gst : GState) :
    Except Err (CompSt × GState) :=
  let acc := py_strip (py_drop acc 4)
  if py_contains_char acc ' ' then
    .error (.ce "syntax error - expected ';' after a pop")
  else if st.poped_stack_slices.contains acc then
    .error (.ce ("stack slice \"" ++ acc ++ "\" already poped"))
  else if st.slice_stack_scopes.length = 0 ∨
      ¬ st.slice_stack_scopes.contains acc then
    .error (.ce ("unknown stack slice \"" ++ acc ++ "\""))
  else if ¬ (st.slice_stack_scopes.headD "" = acc) then
    .error (.ce ("only the last pushed stack slice (here it's slice \"" ++
      st.slice_stack_scopes.headD "" ++ "\") can be poped"))
  else if ¬ (st.current_comp_segment_depth = 1) then
    .error (.ce "for now, stack slices can be only used on the root scope (outside of if, while, for, etc.)")
  else
    let segs := storeSegment st.compiled_segments
      st.current_comp_segment_index
      (st.current_comp_segment ++ cgkw ctx.cfg "end" ++ "\n\n")
    match st.comp_segment_stack with
    | [] => .error (.crash "IndexError: pop from empty list")
    | prev :: stack_rest =>
      match segs[prev]? with
      | none => .error (.crash "IndexError: list index out of range")
      | some seg =>
        .ok ({ st with
          current_comp_segment := seg
          current_comp_segment_depth := 1
          current_comp_segment_index := prev
          comp_segment_stack := stack_rest
          slice_stack_scopes := st.slice_stack_scopes.tail
          poped_stack_slices := st.poped_stack_slices ++ [acc]
          compiled_segments := segs }, gst)

/-- The call-emission tail of the plain-call branch (source lines
922-940), after the callee text has been resolved. -/
def stmt_call_resolved (fuel : Nat) (ctx : Ctx) (tem_args : List String)
    (acc : String) (st : CompSt) (gst : GState) :
    Except Err (CompSt × GState) :=
  match gst.defined_fn_prototypes.lookup acc with
  | none => .error (.ce ("call to an undefined fn \"" ++ acc ++ "\""))
  | some callee_fn =>
    let fn_call_loc : CallLocationAst :=
      { caller_fn_name := ctx.fn_proto.name
        callee_fn_name := acc
        template_arg_values := tem_args
        inherited_template_arg_values := []
        inherited_template_args := []
        callee_commit_dest_fn :=
          if callee_fn.is_slice_valid then
            ctx.call_loc.callee_commit_dest_fn
          else none }
    match compile_fn fuel ctx.cfg callee_fn fn_call_loc gst with
    | .error e => .error e
    | .ok (callee_fn_instance, gst) =>
      .ok (emit_line st callee_fn_instance.comp_name, gst)

/-- The plain-call branch of `compile_stmt` (source lines 905-940). -/
def stmt_call (fuel : Nat) (ctx : Ctx) (acc : String) (st : CompSt)
    (gst : GState) : Except Err (CompSt × GState) :=
  if py_contains_char acc '(' ∧ ¬ py_contains_char acc ')' then
    .error (.ce "syntax error - unexpected ';' inside a template args closure")
  else
    match parse_template_args acc with
    | .error e => .error e
    | .ok (tem_args, size_read) =>
      match (if size_read = 0 then
          if py_contains_char acc ' ' then
            .error (.ce "syntax error - expected a ';' after a fn call")
          else .ok acc
        else
          if ¬ (py_strip (py_drop acc (size_read + 1)) = "") then
            .error (.ce "syntax error - expected a ';' after a fn call")
          else .ok (py_strip (split1 acc "(").1) : Except Err String) with
      | .error e => .error e
      | .ok acc => stmt_call_resolved fuel ctx tem_args acc st gst

/-- `compile_stmt` at positive fuel, with the accumulator already
stripped and the branches delegated. -/
def compile_stmt_core (fuel : Nat) (ctx : Ctx) (acc : String) (st : CompSt)
    (gst : GState) : Except Err (CompSt × GState) :=
  if acc = "++" then
    .ok (emit_line st ((ctx.cfg.builtin_fns.lookup "place").getD ""), gst)
  else if acc = "--" then
    .ok (emit_line st ((ctx.cfg.builtin_fns.lookup "pick").getD ""), gst)
  else if acc = "" then .ok (st, gst)
  else if (ctx.cfg.builtin_fns.lookup acc).isSome then
    .ok (emit_line st ((ctx.cfg.builtin_fns.lookup acc).getD ""), gst)
  else if py_starts_with acc "no_op" then
    if ¬ (acc = "no_op") then
      .error (.ce "syntax error - expected a ';' after a no_op keyword")
    else .ok (st, gst)
  else if py_starts_with acc "recall" then stmt_recall fuel ctx acc st gst
  else if py_starts_with acc "commit" then stmt_commit ctx acc st gst
  else if py_contains_char acc '=' then stmt_push fuel ctx acc st gst
  else if py_starts_with acc "pop " then stmt_pop ctx acc st gst
  else if py_starts_with acc "if" ∨ py_starts_with acc "while" ∨ py_starts_with acc "for" then
    .error (.ce "syntax error - if, while, and for statements do not support bracket-less forms")
  else stmt_call fuel ctx acc st gst

/-- The `if `-header branch of `compile_item` (source lines 523-534). -/
def item_if (fuel : Nat) (ctx : Ctx) (hdr : String) (body : List Item)
    (st : CompSt) (gst : GState) : Except Err (CompSt × GState) :=
  let acc := py_drop hdr 3
  match parse_contition ctx.cfg acc with
  | .error e => .error e
  | .ok (cond, consumed) =>
    let acc := py_drop acc consumed
    if ¬ (py_strip acc = "") then
      .error (.ce "syntax error - expected a '\x7b' after an if statement")
    else
      let st' :=
        { st with
          current_comp_segment := st.current_comp_segment ++
            indent st.current_comp_segment_depth ++
            cgkw ctx.cfg "if" ++ " " ++ cond ++ "\n"
          is_last_end_if :=
            set_last_end_if st.is_last_end_if st.current_comp_segment_depth true
          current_comp_segment_depth := st.current_comp_segment_depth + 1 }
      match compile_items fuel ctx body st' gst with
      | .error e => .error e
      | .ok (st, gst) => .ok (close_block ctx.cfg st, gst)

/-- The `else`-header branch of `compile_item` (source lines 536-549). -/
def item_else (fuel : Nat) (ctx : Ctx) (hdr : String) (body : List Item)
    (st : CompSt) (gst : GState) : Except Err (CompSt × GState) :=
  let acc := py_drop hdr 4
  if ¬ get_last_end_if st.is_last_end_if st.current_comp_segment_depth ∨
      ¬ (py_len st.current_comp_segment > py_len (cgkw ctx.cfg "end") + 1) ∨
      ¬ (py_take_right st.current_comp_segment (py_len (cgkw ctx.cfg "end") + 1) =
          cgkw ctx.cfg "end" ++ "\n") then
    .error (.ce "syntax error - else statements can be only defined after an if")
  else if ¬ (py_strip acc = "") then
    .error (.ce "syntax error - expected a '\x7b' after an else statement")
  else
    let st' :=
      { st with
        current_comp_segment := py_drop_right st.current_comp_segment
          ((py_len (cgkw ctx.cfg "end") + 1) +
            3 * st.current_comp_segment_depth.toNat)
        is_last_end_if :=
          set_last_end_if st.is_last_end_if st.current_comp_segment_depth false
        current_comp_segment_depth := st.current_comp_segment_depth + 1 }
    match compile_items fuel ctx body st' gst with
    | .error e => .error e
    | .ok (st, gst) => .ok (close_block ctx.cfg st, gst)

/-- The `while `-header branch of `compile_item` (source lines 551-562). -/
def item_while (fuel : Nat) (ctx : Ctx) (hdr : String) (body : List Item)
    (st : CompSt) (gst : GState) : Except Err (CompSt × GState) :=
  let acc := py_drop hdr 6
  match parse_contition ctx.cfg acc with
  | .error e => .error e
  | .ok (cond, consumed) =>
    let acc := py_drop acc consumed
    if ¬ (py_strip acc = "") then
      .error (.ce "syntax error - expected a '\x7b' after a while statement")
    else
      let st' :=
        { st with
          current_comp_segment := st.current_comp_segment ++
            indent st.current_comp_segment_depth ++
            cgkw ctx.cfg "while" ++ " " ++ cond ++ "\n"
          is_last_end_if :=
            set_last_end_if st.is_last_end_if st.current_comp_segment_depth false
          current_comp_segment_depth := st.current_comp_segment_depth + 1 }
      match compile_items fuel ctx body st' gst with
      | .error e => .error e
      | .ok (st, gst) => .ok (close_block ctx.cfg st, gst)

/-- The `for `-header branch of `compile_item` (source lines 564-581). -/
def item_for (fuel : Nat) (ctx : Ctx) (hdr : String) (body : List Item)
    (st : CompSt) (gst : GState) : Except Err (CompSt × GState) :=
  let acc := py_drop hdr 4
  match py_int_base0 acc with
  | none =>
    .error (.ce ("for loop count \"" ++ py_strip acc ++
      "\" is not convertible to an integer"))
  | some count =>
    let rest := py_drop acc (py_len (toString count))
    if ¬ (py_strip rest = "") then
      .error (.ce "syntax error - expected a '\x7b' after a for statement")
    else
      match (if count > ctx.cfg.max_loop_count then
          warn_print ctx.cfg ("for loop count " ++ toString count ++
            " is greater than the safe maximum of " ++
            toString ctx.cfg.max_loop_count) gst
        else .ok gst) with
      | .error e => .error e
      | .ok gst =>
        let st' :=
          { st with
            current_comp_segment := st.current_comp_segment ++
              indent st.current_comp_segment_depth ++
              cgkw ctx.cfg "for" ++ " " ++ toString count ++
              cgkw ctx.cfg "for-suffix" ++ "\n"
            is_last_end_if :=
              set_last_end_if st.is_last_end_if st.current_comp_segment_depth false
            current_comp_segment_depth := st.current_comp_segment_depth + 1 }
        match compile_items fuel ctx body st' gst with
        | .error e => .error e
        | .ok (st, gst) => .ok (close_block ctx.cfg st, gst)

/-- The post-scan and instantiation tail of the lambda branch (source
lines 618-677), once the lambda prototype is known. -/
def item_lambda_go (fuel : Nat) (ctx : Ctx) (post : String) (st : CompSt)
    (lambda_proto : FnPrototypeAst) (gst : GState) :
    Except Err (CompSt × GState) :=
  match lambda_post_scan post.toList [] with
  | .error e => .error e
  | .ok l_acc =>
    match parse_template_args l_acc with
    | .error e => .error e
    | .ok (tem_args, read_size) =>
      let l_acc :=
        if ¬ (read_size = 0) then py_drop l_acc (read_size + 1)
        else py_drop l_acc 1
      if ¬ (py_strip l_acc = "") then
        .error (.ce "syntax error - expected a ';' after a lambda definition")
      else
        let lambda_call_loc : CallLocationAst :=
          { caller_fn_name := ctx.fn_proto.name
            callee_fn_name := lambda_proto.name
            template_arg_values := tem_args
            inherited_template_arg_values :=
              ctx.call_loc.template_arg_values ++
              ctx.call_loc.inherited_template_arg_values
            inherited_template_args :=
              ctx.fn_proto.template_args ++
              ctx.call_loc.inherited_template_args
            callee_commit_dest_fn := ctx.call_loc.callee_commit_dest_fn }
        match compile_fn fuel ctx.cfg lambda_proto lambda_call_loc gst with
        | .error e => .error e
        | .ok (lambda_fn_instance, gst) =>
          .ok ({ (emit_line st lambda_fn_instance.comp_name) with
            owning_lambdas :=
              st.owning_lambdas ++ [lambda_fn_instance.comp_name] }, gst)

/-- The lambda-definition branch of `compile_item` (source lines
585-677). -/
def item_lambda (fuel : Nat) (ctx : Ctx) (hdr : String) (body : List Item)
    (post : String) (st : CompSt) (gst : GState) :
    Except Err (CompSt × GState) :=
  let fn_name := ctx.fn_proto.name ++ "_lambda_n" ++
    toString st.owning_lambdas.length
  match (match gst.defined_fn_prototypes.lookup fn_name with
    | some p => .ok (p, gst)
    | none =>
      match parse_template_args hdr with
      | .error e => .error e
      | .ok (tem_args, _) =>
        let lam : FnPrototypeAst :=
          { name := fn_name
            template_args := tem_args
            top_level_implicit_usage := top_level_implicit_flag tem_args
              ctx.call_loc.callee_commit_dest_fn.isSome true
            is_slice_valid := ctx.call_loc.callee_commit_dest_fn.isSome
            body := body }
        .ok (lam, { gst with defined_fn_prototypes :=
          gst.defined_fn_prototypes ++ [(fn_name, lam)] }) :
      Except Err (FnPrototypeAst × GState)) with
  | .error e => .error e
  | .ok (lambda_proto, gst) => item_lambda_go fuel ctx post st lambda_proto gst

/-- `compile_item` on a block at positive fuel, with the branches
delegated. -/
def compile_item_core (fuel : Nat) (ctx : Ctx) (hdr : String)
    (body : List Item) (post : String) (st : CompSt) (gst : GState) :
    Except Err (CompSt × GState) :=
  if py_contains_char hdr '=' then
    match compile_items fuel ctx body st gst with
    | .error e => .error e
    | .ok (st, gst) => .ok (close_block ctx.cfg st, gst)
  else if py_starts_with hdr "if " then item_if fuel ctx hdr body st gst
  else if py_starts_with hdr "else" then item_else fuel ctx hdr body st gst
  else if py_starts_with hdr "while " then item_while fuel ctx hdr body st gst
  else if py_starts_with hdr "for " then item_for fuel ctx hdr body st gst
  else if py_starts_with hdr "fn " then
    .error (.ce "syntax error - fn definitions are not allowed inside fn bodies (did you forget a '\x7d'?)")
  else item_lambda fuel ctx hdr body post st gst

/-! ## Statement classification and push counting (for the segment
accounting of slicing instances) -/

/-- The statement dispatch guard chain restricted to the question "does
this (stripped) statement land in the slice-assignment branch?" (the
`elif '=' in acc` of source line 778 after the earlier guards). -/
def is_assign_stmt (cfg : Config) (acc : String) : Bool :=
  if acc = "++" then false
  else if acc = "--" then false
  else if acc = "" then false
  else if (cfg.builtin_fns.lookup acc).isSome then false
  else if py_starts_with acc "no_op" then false
  else if py_starts_with acc "recall" then false
  else if py_starts_with acc "commit" then false
  else py_contains_char acc '='

/-- Does this (stripped) statement land in the `commit` branch (source
line 762) and pass its trailing-text check? -/
def is_commit_stmt (cfg : Config) (acc : String) : Bool :=
  if acc = "++" then false
  else if acc = "--" then false
  else if acc = "" then false
  else if (cfg.builtin_fns.lookup acc).isSome then false
  else if py_starts_with acc "no_op" then false
  else if py_starts_with acc "recall" then false
  else if py_starts_with acc "commit" then py_strip (py_drop acc 6) = ""
  else false

/-- The number of slice-assignment (`push`) statements this item
contributes at its own level. -/
def countPushItem (cfg : Config) : Item → Nat
  | .stmt acc => if is_assign_stmt cfg (py_strip acc) then 1 else 0
  | .block _ _ _ => 0

/-- The number of root-level slice-assignment (`push`) statements of a
body. -/
def countPush (cfg : Config) : List Item → Nat
  | [] => 0
  | it :: rest => countPushItem cfg it + countPush cfg rest

mutual

/-- No block of this item (recursively) has an `=` in its header: such
blocks are the unfinished slice-assignment-to-a-block construct of
source lines 520-522, which corrupts the depth counter. -/
def no_assign_item : Item → Bool
  | .stmt _ => true
  | .block hdr body _ => ¬ py_contains_char hdr '=' && no_assign_items body

/-- `no_assign_item` over a body. -/
def no_assign_items : List Item → Bool
  | [] => true
  | it :: rest => no_assign_item it && no_assign_items rest

end

/-- Does the body end with a (well-formed) `commit` statement? -/
def last_is_commit (cfg : Config) (its : List Item) : Bool :=
  match its.getLast? with
  | some (.stmt acc) => is_commit_stmt cfg (py_strip acc)
  | _ => false

/-- The substituted body `compile_fn` scans for an instance (source lines
466-477). -/
def instance_body (fn_proto : FnPrototypeAst) (call_loc : CallLocationAst) :
    List Item :=
  subst_items
    ((fn_proto.template_args ++ call_loc.inherited_template_args).zip
      (call_loc.template_arg_values ++ call_loc.inherited_template_arg_values))
    fn_proto.body

/-! ## Segment-accounting state predicates -/

/-- The five segment-bookkeeping fields agree (everything except the
current segment text, depth, `is_last_end_if`, popped names and owned
lambdas). -/
def SameSeg (st st' : CompSt) : Prop :=
  st'.compiled_segments = st.compiled_segments ∧
  st'.current_comp_segment_index = st.current_comp_segment_index ∧
  st'.next_comp_segment_index = st.next_comp_segment_index ∧
  st'.comp_segment_stack = st.comp_segment_stack ∧
  st'.slice_stack_scopes = st.slice_stack_scopes

/-- The invariant of the segment bookkeeping along a body scan: the
current slot index is in range or exactly one past the end and
`next_comp_segment_index` counts the allocated segments accordingly;
stack entries index stored slots; segment stack and slice scopes move in
lock step; and the bottom of the segment stack is slot `0` (the entry
segment). -/
def SegInv (st : CompSt) : Prop :=
  ((st.current_comp_segment_index < st.compiled_segments.length ∧
    st.next_comp_segment_index + 1 = st.compiled_segments.length) ∨
   (st.current_comp_segment_index = st.compiled_segments.length ∧
    st.next_comp_segment_index = st.compiled_segments.length)) ∧
  (∀ p ∈ st.comp_segment_stack, p < st.compiled_segments.length) ∧
  st.comp_segment_stack.length = st.slice_stack_scopes.length ∧
  (st.comp_segment_stack = [] → st.current_comp_segment_index = 0) ∧
  (st.comp_segment_stack ≠ [] → st.comp_segment_stack.getLast? = some 0)

/-- One scan step of `k` pushes: the depth is restored, the
`is_last_end_if` entry for depth `0` never appears,
`next_comp_segment_index` advances by exactly `k`, nothing in the
segment bookkeeping moves unless the step runs at root depth, and the
invariant is preserved. -/
def SegStep (k : Nat) (st st' : CompSt) : Prop :=
  st'.current_comp_segment_depth = st.current_comp_segment_depth ∧
  get_last_end_if st'.is_last_end_if 0 = get_last_end_if st.is_last_end_if 0 ∧
  st'.next_comp_segment_index = st.next_comp_segment_index + k ∧
  (¬ st.current_comp_segment_depth = 1 → SameSeg st st') ∧
  (SegInv st → SegInv st')

/-- The body of `compile_fn` at positive fuel. -/
def compile_fn_body (fuel : Nat) (cfg : Config) (fn_proto : FnPrototypeAst)
    (call_loc : CallLocationAst) (gst : GState) :
    Except Err (FnInstanceAst × GState) :=
    -- lines 425-431
    let comp_name :=
      if fn_proto.top_level_implicit_usage then fn_proto.name
      else gen_comp_name cfg fn_proto call_loc 0
    -- lines 433-435
    match h : gst.instaciated_fns.lookup comp_name with
    | some inst => .ok (inst, gst)
    | none =>
      -- lines 437-438
      let fn : FnInstanceAst :=
        { name := fn_proto.name
          comp_name := comp_name
          owning_lambdas := []
          compiled_segments := []
          commit_fn := call_loc.callee_commit_dest_fn
          instance_template_args := call_loc.template_arg_values
          inherited_template_arg_values := call_loc.inherited_template_arg_values
          inherited_template_args := call_loc.inherited_template_args }
      let gst1 : GState :=
        { gst with instaciated_fns := gst.instaciated_fns.insert comp_name fn rfl h }
      -- lines 463-464
      if ¬ (fn_proto.template_args.length = call_loc.template_arg_values.length) then
        .error (.ce ("incorrect number of template args for fn \"" ++
          fn_proto.name ++ "\", expected " ++ toString fn_proto.template_args.length ++
          ", got " ++ toString call_loc.template_arg_values.length))
      -- lines 466-471; an `inherited` binding list longer than its value
      -- list would be an uncaught IndexError in the source
      else if call_loc.inherited_template_args.length >
          call_loc.inherited_template_arg_values.length then
        .error (.crash "IndexError in template substitution")
      else
        let σ := (fn_proto.template_args ++ call_loc.inherited_template_args).zip
          (call_loc.template_arg_values ++ call_loc.inherited_template_arg_values)
        let body := subst_items σ fn_proto.body
        -- lines 442-459
        let st0 : CompSt :=
          { current_comp_segment := comp_name ++ "\n"
            current_comp_segment_depth := 1
            current_comp_segment_index := 0
            next_comp_segment_index := 0
            comp_segment_stack := []
            slice_stack_scopes := []
            poped_stack_slices := []
            is_last_end_if := []
            compiled_segments := []
            owning_lambdas := [] }
        match compile_items fuel { cfg := cfg, fn_proto := fn_proto, call_loc := call_loc }
            body st0 gst1 with
        | .error e => .error e
        | .ok (st, gst2) =>
          -- the fn-ending `}` (lines 681-707)
          let st := close_block cfg st
          if ¬ (st.slice_stack_scopes = []) then
            .error (.ce "stack slice(s) were not poped before ending scope! No tracked slices must exist at the end of a scope")
          else
            let segs := storeSegment st.compiled_segments
              st.current_comp_segment_index (st.current_comp_segment ++ "\n")
            -- lines 951-959
            let fn2 : FnInstanceAst :=
              { fn with compiled_segments := segs.reverse
                        owning_lambdas := st.owning_lambdas }
            let gst3 : GState :=
              { gst2 with
                instaciated_fns := gst2.instaciated_fns.writeback comp_name fn2 rfl
                output_source := gst2.output_source ++
                  String.join ((segs.reverse).map py_upper) }
            .ok (fn2, gst3)

/-- A slicing prototype whose whole body is one `commit`. -/
def c4w_proto : FnPrototypeAst :=
  { name := "f", template_args := [], top_level_implicit_usage := false,
    is_slice_valid := true, body := [.stmt "commit"] }

/-- A call location for `c4w_proto` with the continuation `main_seg1`. -/
def c4w_loc : CallLocationAst :=
  { caller_fn_name := "main", callee_fn_name := "f",
    template_arg_values := [], inherited_template_arg_values := [],
    inherited_template_args := [],
    callee_commit_dest_fn := some { name := "main[segment:1]", comp_name := "main_seg1" } }

/-- The instance compiled for `c4w_proto` under `c4w_loc`. -/
def c4w_inst : FnInstanceAst :=
  match compile_fn 8 cfg0 c4w_proto c4w_loc initGState with
  | .ok (i, _) => i
  | .error _ => inst_fallback

/-- The state that compilation leaves behind. -/
def c4w_gst : GState :=
  match compile_fn 8 cfg0 c4w_proto c4w_loc initGState with
  | .ok (_, g) => g
  | .error _ => initGState


/-! ## Claim theorems -/

/-- Dict lookup success names a member entry. -/
theorem lookup_some_mem {c : List (String × FnInstanceAst)} {k : String}
    {v : FnInstanceAst} (h : c.lookup k = some v) : (k, v) ∈ c := by
  induction c with
  | nil => cases h
  | cons q rest ih =>
    by_cases hq : k = q.1
    · have hl : List.lookup k (q :: rest) = some q.2 := by
        simp [List.lookup, show (k == q.1) = true from beq_iff_eq.mpr hq]
      rw [hl] at h
      injection h with h2
      have hkv : (k, v) = q := by rw [hq, ← h2]
      rw [hkv]
      exact List.mem_cons_self q rest
    · have h' : List.lookup k rest = some v := by
        simpa [List.lookup,
          show (k == q.1) = false from beq_eq_false_iff_ne.mpr hq] using h
      exact List.mem_cons_of_mem q (ih h')

/-- In a list with pairwise-distinct keys, two members with the same key
are the same entry. -/
theorem pairwise_key_unique {c : List (String × FnInstanceAst)}
    (hpw : c.Pairwise (fun a b => a.1 ≠ b.1)) :
    ∀ p q, p ∈ c → q ∈ c → p.1 = q.1 → p = q := by
  induction c with
  | nil => intro p q hp _ _; cases hp
  | cons r rest ih =>
    intro p q hp hq hk
    cases hpw with
    | cons hhead htail =>
      rcases List.mem_cons.mp hp with hp1 | hp2 <;>
        rcases List.mem_cons.mp hq with hq1 | hq2
      · rw [hp1, hq1]
      · exfalso; exact hhead q hq2 (by rw [← hp1, hk])
      · exfalso; exact hhead p hp2 (by rw [← hq1, ← hk])
      · exact ih htail p q hp2 hq2 hk

/-- C1: compilation of `fn loop { recall; }` at top level terminates via
the memoised cache: the stub inserted under the key `loop` before the
body compiles makes the recursive `recall` a cache hit, so exactly one
instance is compiled (the cache holds the single entry `loop`, emitted
under its own name `LOOP`), its emitted body contains a call to its own
emitted name (`LOOP\n   LOOP\n...`), and the "recall most likely causes
an infinite loop" warning is raised. -/
theorem c1_recall_memoization :
    run_cache_names 32 cfg0 prog_loop = some [("loop", "loop")] ∧
    (run_instance 32 cfg0 prog_loop "loop").map
      (fun i => i.compiled_segments) = some [["loop\n   loop\nEND\n\n"].getD 0 ""] ∧
    run_output 32 cfg0 prog_loop =
      some ("LOOP\n   LOOP\nEND\n\n",
        ["recall most likely causes an infinite loop"]) := by
  refine ⟨rfl, rfl, rfl⟩

/-- C5 counterexample: in the `over_wall` scenario the continuation
segment `MAIN_SEG1<...>` emits only `END` - the `STEP` of the statement
after `pop s;` is appended to the `MAIN` segment, after the call to the
`OVER_WALL` monomorph.  The claim asserts the second segment emits
`STEP` then `END`; the segment that the `OVER_WALL` monomorph's
continuation names contains no `STEP` at all, and the other segment
carries both the call and the `STEP`, so the claimed shape is false on
this input. -/
theorem c5_counterexample :
    (run_instance 64 cfg0 prog_over_wall "main").map
      (fun i => i.compiled_segments) =
      some ["main_seg1<ch-none-th-none>\nEND\n\n",
            "main\n   over_wall<ch0-th-none>\n   STEP\nEND\n\n"] ∧
    (run_instance 64 cfg0 prog_over_wall "over_wall<ch0-th-none>").map
      (fun i => i.commit_fn.map (fun c => c.comp_name)) =
      some (some "main_seg1<ch-none-th-none>") ∧
    str_contains "main_seg1<ch-none-th-none>\nEND\n\n" "STEP" = false ∧
    str_contains "main\n   over_wall<ch0-th-none>\n   STEP\nEND\n\n" "STEP" = true := by
  refine ⟨rfl, rfl, rfl, rfl⟩

/-- C5 amended: `MAIN` splits into two segments, `MAIN` and
`MAIN_SEG1<...>`.  `MAIN` emits the call to the `OVER_WALL` monomorph
(whose continuation is `MAIN_SEG1<...>`), then the post-`pop` `STEP`,
then `END`; the continuation segment `MAIN_SEG1<...>` emits only `END`;
the `OVER_WALL` monomorph's body emits `UNTIL ISNOT WALL / STEP / END`,
then the call to the continuation's emitted name, then `END`.  The
output places the monomorph first, then the continuation segment, then
`MAIN`. -/
theorem c5_amended_shape :
    run_output 64 cfg0 prog_over_wall =
      some ("OVER_WALL<CH0-TH-NONE>\n   UNTIL ISNOT WALL\n      STEP\n   END\n   MAIN_SEG1<CH-NONE-TH-NONE>\nEND\n\nMAIN_SEG1<CH-NONE-TH-NONE>\nEND\n\nMAIN\n   OVER_WALL<CH0-TH-NONE>\n   STEP\nEND\n\n",
        []) ∧
    (run_instance 64 cfg0 prog_over_wall "over_wall<ch0-th-none>").map
      (fun i => i.compiled_segments) =
      some ["over_wall<ch0-th-none>\n   UNTIL ISNOT WALL\n      STEP\n   END\n   main_seg1<ch-none-th-none>\nEND\n\n"] ∧
    (run_instance 64 cfg0 prog_over_wall "main").map
      (fun i => i.compiled_segments) =
      some ["main_seg1<ch-none-th-none>\nEND\n\n",
            "main\n   over_wall<ch0-th-none>\n   STEP\nEND\n\n"] := by
  refine ⟨rfl, rfl, rfl⟩

/-- C3: the emitted names of monomorphized instances embed the values of
Python's `hash()` of a string and of a tuple of strings (`gen_comp_name`,
non-debug branch).  Those hashes are salted with the process's random
`PYTHONHASHSEED`, so two runs of the compiler on the same input with the
same flags and dialect are two runs under two hash functions.  Modelling
the seeded hashes as configuration parameters: the same program under
`cfg0` and `cfg1` - identical flags (`g`, `max_loop_count`,
`warning_level`) and identical dialect tables, different hash functions -
compiles successfully both times to different output bytes, refuting
byte-identical re-runs. -/
theorem c3_output_depends_on_hash_seed :
    cfg0.g = cfg1.g ∧ cfg0.max_loop_count = cfg1.max_loop_count ∧
    cfg0.warning_level = cfg1.warning_level ∧
    cfg0.builtin_fns = cfg1.builtin_fns ∧
    cfg0.builtit_reserved = cfg1.builtit_reserved ∧
    cfg0.builtin_cg_keywords = cfg1.builtin_cg_keywords ∧
    (run_output 64 cfg0 prog_over_wall).isSome = true ∧
    (run_output 64 cfg1 prog_over_wall).isSome = true ∧
    run_output 64 cfg0 prog_over_wall ≠ run_output 64 cfg1 prog_over_wall := by
  refine ⟨rfl, rfl, rfl, rfl, rfl, rfl, rfl, rfl, ?_⟩
  decide

/-- C6 counterexample: `fn main { commit; }` - an occurrence of `commit`
in the body of an instance whose prototype is not slicing.  The claim
says a warning (not a hard compile error) is raised; the compiler
instead aborts with the `CompileError` of source line 764, and no
warning is recorded. -/
theorem c6_counterexample :
    run_error 32 cfg0 prog_commit_nonslice =
      some (.ce "cannot use the commit keyword inside a non-slice fn (see numka slice fn docs)") := by
  rfl

/-- C8 counterexample: the call expression `a)` contains no `(`, yet
`parse_template_args` does not return the empty tuple - the first scan
loop (source lines 219-228) raises on the `)` it meets before any `(`. -/
theorem c8_counterexample :
    parse_template_args "a)" =
      .error (.ce "syntax error - unexpected ')' before '(' in a call expression") := by
  rfl

/-- Helper for C8: when the call expression holds neither `(` nor `)`,
the first scan loop runs off the end and reports no open paren. -/
theorem find_open_none : ∀ (cs : List Char) (i : Nat),
    cs.contains '(' = false → cs.contains ')' = false →
    pta_find_open cs i = .ok none := by
  intro cs
  induction cs with
  | nil => intro i _ _; rfl
  | cons c rest ih =>
    intro i h1 h2
    simp only [List.contains_cons, Bool.or_eq_false_iff] at h1 h2
    rw [pta_find_open]
    rw [if_neg (show ¬ (c = ')') from fun he => by simp [he] at h2)]
    rw [if_neg (show ¬ (c = '(') from fun he => by simp [he] at h1)]
    exact ih (i + 1) h1.2 h2.2

/-- Helper for C8: a `)` with no `(` anywhere raises the unexpected-`)`
error in the first scan loop. -/
theorem find_open_rparen : ∀ (cs : List Char) (i : Nat),
    cs.contains '(' = false → cs.contains ')' = true →
    pta_find_open cs i =
      .error (.ce "syntax error - unexpected ')' before '(' in a call expression") := by
  intro cs
  induction cs with
  | nil => intro i _ h2; simp [List.contains_nil] at h2
  | cons c rest ih =>
    intro i h1 h2
    simp only [List.contains_cons, Bool.or_eq_false_iff] at h1
    rw [pta_find_open]
    by_cases hc : c = ')'
    · rw [if_pos hc]
    · rw [if_neg hc]
      rw [if_neg (show ¬ (c = '(') from fun he => by simp [he] at h1)]
      have h2' : rest.contains ')' = true := by
        simp only [List.contains_cons] at h2
        rcases Bool.or_eq_true_iff.mp h2 with hx | hx
        · have h3 : (')' : Char) = c := by simpa using hx
          exact absurd h3.symm hc
        · exact hx
      exact ih (i + 1) h1.2 h2'

/-- Helper for C8: a successful second scan stops on a `)` inside the
scanned text, and the returned index addresses exactly that character. -/
theorem pta_scan_rparen : ∀ (cs : List Char) (j depth : Nat) (cur : List Char)
    (acc : List String) (raw : List String) (jj : Nat),
    pta_scan cs j depth cur acc = .ok (raw, jj) →
    ∃ k, k < cs.length ∧ cs[k]? = some ')' ∧ jj = j + k := by
  intro cs
  induction cs with
  | nil => intro j depth cur acc raw jj h; cases h
  | cons c rest ih =>
    intro j depth cur acc raw jj h
    rw [pta_scan] at h
    split at h
    · obtain ⟨k, hk, hg, hj⟩ := ih (j+1) (depth+1) _ _ _ _ h
      exact ⟨k + 1, by simp only [List.length_cons]; omega,
        by simpa using hg, by omega⟩
    · split at h
      · split at h
        · injection h with h2
          obtain ⟨h3, h4⟩ := Prod.mk.injEq .. |>.mp h2
          refine ⟨0, by simp only [List.length_cons]; omega, ?_, by omega⟩
          simp only [List.getElem?_cons_zero]
          exact congrArg some (by assumption)
        · obtain ⟨k, hk, hg, hj⟩ := ih (j+1) (depth-1) _ _ _ _ h
          exact ⟨k + 1, by simp only [List.length_cons]; omega,
            by simpa using hg, by omega⟩
      · split at h
        · obtain ⟨k, hk, hg, hj⟩ := ih (j+1) depth _ _ _ _ h
          exact ⟨k + 1, by simp only [List.length_cons]; omega,
            by simpa using hg, by omega⟩
        · obtain ⟨k, hk, hg, hj⟩ := ih (j+1) depth _ _ _ _ h
          exact ⟨k + 1, by simp only [List.length_cons]; omega,
            by simpa using hg, by omega⟩

/-- Helper for C8: every successful parse returns trim-images of raw
argument slices, and a non-zero consumed count indexes a `)` character
in the call expression. -/
theorem pta_ok_shape : ∀ (s : String) (args : List String) (j : Nat),
    parse_template_args s = .ok (args, j) →
    (args = [] ∨ ∃ raw : List String, args = raw.map py_strip) ∧
    (j ≠ 0 → s.toList[j]? = some ')') := by
  intro s args j h
  unfold parse_template_args at h
  cases hfo : pta_find_open s.toList 0 with
  | error e => rw [hfo] at h; cases h
  | ok oi =>
    rw [hfo] at h
    cases oi with
    | none =>
      injection h with h2
      obtain ⟨h3, h4⟩ := Prod.mk.injEq .. |>.mp h2
      exact ⟨Or.inl h3.symm, fun hj => absurd h4.symm hj⟩
    | some i =>
      have h1 : (match pta_scan (s.toList.drop (i + 1)) (i + 1) 1 [] [] with
          | Except.error e => Except.error e
          | Except.ok (raw, j) =>
            if (List.map py_strip raw).length = 1 ∧
                py_strip ((List.map py_strip raw).headD "") = "" then
              Except.ok (([] : List String), j)
            else
              match List.findIdx? (fun a => py_strip a = "") (List.map py_strip raw) with
              | some i =>
                Except.error (Err.ce ("syntax error - missing template argument at position "
                  ++ toString (i + 1)))
              | none => Except.ok (List.map py_strip raw, j)) = Except.ok (args, j) := h
      clear h
      cases hsc : pta_scan (s.toList.drop (i + 1)) (i + 1) 1 [] [] with
      | error e => rw [hsc] at h1; cases h1
      | ok p =>
        obtain ⟨raw, jj⟩ := p
        rw [hsc] at h1
        obtain ⟨k, hk, hg, hjj⟩ := pta_scan_rparen _ _ _ _ _ _ _ hsc
        have hgj : s.toList[jj]? = some ')' := by
          rw [hjj, ← List.getElem?_drop]
          exact hg
        have h2 : (if (List.map py_strip raw).length = 1 ∧
              py_strip ((List.map py_strip raw).headD "") = "" then
            Except.ok (([] : List String), jj)
          else
            match List.findIdx? (fun a => py_strip a = "") (List.map py_strip raw) with
            | some i =>
              Except.error (Err.ce ("syntax error - missing template argument at position "
                ++ toString (i + 1)))
            | none => Except.ok (List.map py_strip raw, jj)) = Except.ok (args, j) := h1
        clear h1
        split at h2
        · injection h2 with h3
          obtain ⟨h4, h5⟩ := Prod.mk.injEq .. |>.mp h3
          exact ⟨Or.inl h4.symm, fun _ => h5 ▸ hgj⟩
        · cases hidx : List.findIdx? (fun a => py_strip a = "") (List.map py_strip raw) with
          | some idx => rw [hidx] at h2; cases h2
          | none =>
            rw [hidx] at h2
            injection h2 with h3
            obtain ⟨h4, h5⟩ := Prod.mk.injEq .. |>.mp h3
            exact ⟨Or.inr ⟨raw, h4.symm⟩, fun _ => h5 ▸ hgj⟩

/-- C8 amended: a call expression with no `(` and no `)` parses to the
empty tuple with zero consumed; a `)` with no `(` is the unexpected-`)`
error (this is where the claim's "no `(` implies empty tuple" fails);
every successful parse returns trimmed argument texts and, when non-zero,
the consumed count is the index of the closing `)`; nesting, the `()`
and `(  )` empty forms, the missing-argument error and the never-closed
error behave as on the exemplar inputs. -/
theorem c8_amended :
    (∀ s : String, s.toList.contains '(' = false → s.toList.contains ')' = false →
      parse_template_args s = .ok ([], 0)) ∧
    (∀ s : String, s.toList.contains '(' = false → s.toList.contains ')' = true →
      parse_template_args s =
        .error (.ce "syntax error - unexpected ')' before '(' in a call expression")) ∧
    (∀ (s : String) (args : List String) (j : Nat),
      parse_template_args s = .ok (args, j) →
      (args = [] ∨ ∃ raw : List String, args = raw.map py_strip) ∧
      (j ≠ 0 → s.toList[j]? = some ')')) ∧
    parse_template_args "f(a, (b,c), d)" = .ok (["a", "(b,c)", "d"], 13) ∧
    parse_template_args "f()" = .ok ([], 2) ∧
    parse_template_args "f(  )" = .ok ([], 4) ∧
    parse_template_args "f(a,,b)" =
      .error (.ce "syntax error - missing template argument at position 2") ∧
    parse_template_args "f(" =
      .error (.ce "unexpected end of file - template args expression never closed") := by
  refine ⟨?_, ?_, pta_ok_shape, rfl, rfl, rfl, rfl, rfl⟩
  · intro s h1 h2
    unfold parse_template_args
    rw [find_open_none s.toList 0 h1 h2]
  · intro s h1 h2
    unfold parse_template_args
    rw [find_open_rparen s.toList 0 h1 h2]

/-- C8 amended, witnessed at concrete inputs: `move` has no parens and
parses to the empty tuple; `mo)ve` is the unexpected-`)` error; the
successful parse of `f(a, (b,c), d)` returns trimmed texts and its index
13 addresses the closing `)`. -/
theorem c8_amended_witness :
    parse_template_args "move" = .ok ([], 0) ∧
    parse_template_args "mo)ve" =
      .error (.ce "syntax error - unexpected ')' before '(' in a call expression") ∧
    ((["a", "(b,c)", "d"] : List String) = [] ∨
      ∃ raw : List String, ["a", "(b,c)", "d"] = raw.map py_strip) ∧
    ("f(a, (b,c), d)".toList[13]? = some ')') := by
  have hmain := c8_amended
  have h3 := hmain.2.2.1 "f(a, (b,c), d)" ["a", "(b,c)", "d"] 13 hmain.2.2.2.1
  exact ⟨hmain.1 "move" (by decide) (by decide),
    hmain.2.1 "mo)ve" (by decide) (by decide),
    h3.1, h3.2 (by decide)⟩

set_option maxHeartbeats 2000000 in
/-- C9 counterexample: `fn f slicing { commit; } fn main { s = push f;
pop s; s = push f; pop s; }` - the slice name `s` is pushed twice in one
body, with a `pop` between the two pushes.  The claim says the second
occurrence raises a `CompileError` regardless of the intervening `pop`;
the program compiles successfully (push removes a popped name from
`poped_stack_slices` again, lines 851-852). -/
theorem c9_counterexample :
    run_output 64 cfg0 prog_reuse_after_pop =
      some ("F<CH0-TH-NONE>\n   MAIN_SEG1<CH-NONE-TH-NONE>\nEND\n\nMAIN_SEG2<CH-NONE-TH-NONE>\nEND\n\nMAIN_SEG1<CH-NONE-TH-NONE>\nEND\n\nMAIN\n   F<CH0-TH-NONE>\n   F<CH0-TH-NONE>\nEND\n\n",
        []) := by
  rfl

/-- C6 amended: for an occurrence of `commit` in a compiled body, under
the default dialect and warning policy, exactly three outcomes exist:
a non-slicing prototype is a hard `CompileError` (source line 764); a
slicing prototype with an active continuation emits a call to the
continuation's emitted name; a slicing prototype with no continuation
records the "commit used while not pushing a stack slice" warning.  The
claim's "either emit or warn (not a hard compile error)" is wrong in the
first case. -/
theorem c6_amended (fuel : Nat) (hs : String → Int) (ht : List String → Int)
    (fn_proto : FnPrototypeAst) (call_loc : CallLocationAst) (st : CompSt)
    (gst : GState) :
    (fn_proto.is_slice_valid = false →
      compile_stmt (fuel + 1)
          { cfg := mkConfig hs ht, fn_proto := fn_proto, call_loc := call_loc }
          "commit" st gst =
        .error (.ce "cannot use the commit keyword inside a non-slice fn (see numka slice fn docs)")) ∧
    (∀ dest, fn_proto.is_slice_valid = true →
      call_loc.callee_commit_dest_fn = some dest →
      compile_stmt (fuel + 1)
          { cfg := mkConfig hs ht, fn_proto := fn_proto, call_loc := call_loc }
          "commit" st gst =
        .ok (emit_line st dest.comp_name, gst)) ∧
    (fn_proto.is_slice_valid = true → call_loc.callee_commit_dest_fn = none →
      compile_stmt (fuel + 1)
          { cfg := mkConfig hs ht, fn_proto := fn_proto, call_loc := call_loc }
          "commit" st gst =
        .ok (st, { gst with warnings := gst.warnings ++
          ["commit keyword used while not pushing a stack slice, called from fn \"" ++
            call_loc.caller_fn_name ++ "\""] })) := by
  obtain ⟨nm, ta, tl, sv, bd⟩ := fn_proto
  obtain ⟨cn, ce, tv, itv, ita, dst⟩ := call_loc
  refine ⟨?_, ?_, ?_⟩
  · intro h
    simp only at h
    subst h
    rfl
  · intro dest h hd
    simp only at h hd
    subst h
    subst hd
    rfl
  · intro h hd
    simp only at h hd
    subst h
    subst hd
    rfl

/-- Witness for `c6_amended` at concrete inputs: all three hypotheses are
discharged at `proto_plain`/`proto_slicing` and
`loc_no_commit`/`loc_commit`. -/
theorem c6_amended_witness :
    (compile_stmt 1
        { cfg := mkConfig (fun _ => 0) (fun _ => 0), fn_proto := proto_plain,
          call_loc := loc_no_commit } "commit" st_probe initGState =
      .error (.ce "cannot use the commit keyword inside a non-slice fn (see numka slice fn docs)")) ∧
    (compile_stmt 1
        { cfg := mkConfig (fun _ => 0) (fun _ => 0), fn_proto := proto_slicing,
          call_loc := loc_commit } "commit" st_probe initGState =
      .ok (emit_line st_probe "CSEG", initGState)) ∧
    (compile_stmt 1
        { cfg := mkConfig (fun _ => 0) (fun _ => 0), fn_proto := proto_slicing,
          call_loc := loc_no_commit } "commit" st_probe initGState =
      .ok (st_probe, { initGState with warnings := initGState.warnings ++
        ["commit keyword used while not pushing a stack slice, called from fn \"caller\""] })) :=
  ⟨(c6_amended 0 (fun _ => 0) (fun _ => 0) proto_plain loc_no_commit st_probe
      initGState).1 rfl,
   (c6_amended 0 (fun _ => 0) (fun _ => 0) proto_slicing loc_commit st_probe
      initGState).2.1 { name := "c", comp_name := "CSEG" } rfl rfl,
   (c6_amended 0 (fun _ => 0) (fun _ => 0) proto_slicing loc_no_commit st_probe
      initGState).2.2 rfl rfl⟩

set_option maxHeartbeats 2000000 in
/-- C9 amended: reusing a stack-slice name is an error exactly while the
slice is still active.  A `<name> = push …` whose name is in the tracked
`slice_stack_scopes` raises the "already in use" `CompileError` (whose
message interpolates the callee text, as the source does); after a `pop`
the name leaves the tracked scopes and a second push of the same name
compiles (the push also removes the name from `poped_stack_slices`
again, so the later `pop` is accepted). -/
theorem c9_amended :
    (∀ (fuel : Nat) (hs : String → Int) (ht : List String → Int)
      (fn_proto : FnPrototypeAst) (call_loc : CallLocationAst) (st : CompSt)
      (gst : GState), st.slice_stack_scopes.contains "s" = true →
      compile_stmt (fuel + 1)
          { cfg := mkConfig hs ht, fn_proto := fn_proto, call_loc := call_loc }
          "s = push f" st gst =
        .error (.ce "stack slice name \"f\" already in use")) ∧
    run_output 64 cfg0 prog_reuse_after_pop =
      some ("F<CH0-TH-NONE>\n   MAIN_SEG1<CH-NONE-TH-NONE>\nEND\n\nMAIN_SEG2<CH-NONE-TH-NONE>\nEND\n\nMAIN_SEG1<CH-NONE-TH-NONE>\nEND\n\nMAIN\n   F<CH0-TH-NONE>\n   F<CH0-TH-NONE>\nEND\n\n",
        []) := by
  constructor
  · intro fuel hs ht fn_proto call_loc st gst h
    simp only [compile_stmt]
    rw [show py_strip (split1 (py_strip "s = push f") "=").1 = "s" from rfl]
    rw [h]
    rfl
  · rfl

/-- Witness for `c9_amended`: the active-reuse branch applied at a state
whose tracked scopes hold `s`. -/
theorem c9_amended_witness :
    compile_stmt 1
        { cfg := mkConfig (fun _ => 0) (fun _ => 0), fn_proto := proto_plain,
          call_loc := loc_no_commit } "s = push f" st_active_s initGState =
      .error (.ce "stack slice name \"f\" already in use") :=
  c9_amended.1 0 (fun _ => 0) (fun _ => 0) proto_plain loc_no_commit
    st_active_s initGState rfl

/-- C10: a `for` loop with a negative count literal compiles with no
error and no warning, emitting `REPEAT <negative count>-TIMES`.
Concretely, `fn main { for -2 { step; } }` compiles to
`MAIN / REPEAT -2-TIMES / STEP / END / END` with an empty warning list;
and in general, for every negative `n` whose literal round-trips through
`int(., base=0)` (the side conditions below), the `for` block header
compiles under the default configuration to the `REPEAT n-TIMES` form
with the surrounding state otherwise unchanged and no warning recorded -
the only warning guard in the handler is `count > max_loop_count`
(source line 576), and no lower bound is ever checked. -/
theorem c10_for_negative_count :
    (run_output 32 cfg0 prog_for_neg =
      some ("MAIN\n   REPEAT -2-TIMES\n      STEP\n   END\nEND\n\n", [])) ∧
    (∀ (fuel : Nat) (hs : String → Int) (ht : List String → Int)
      (fn_proto : FnPrototypeAst) (call_loc : CallLocationAst) (st : CompSt)
      (gst : GState) (hdr post : String) (n : Int),
      n < 0 →
      py_contains_char hdr '=' = false →
      py_starts_with hdr "if " = false →
      py_starts_with hdr "else" = false →
      py_starts_with hdr "while " = false →
      py_starts_with hdr "for " = true →
      py_int_base0 (py_drop hdr 4) = some n →
      py_strip (py_drop (py_drop hdr 4) (py_len (toString n))) = "" →
      st.current_comp_segment_depth = 1 →
      compile_item (fuel + 4)
          { cfg := mkConfig hs ht, fn_proto := fn_proto, call_loc := call_loc }
          (.block hdr [.stmt "step"] post) st gst =
        .ok ({ st with
          current_comp_segment := st.current_comp_segment ++
            "   " ++ "REPEAT" ++ " " ++ toString n ++ "-TIMES" ++ "\n" ++
            "      " ++ "STEP" ++ "\n" ++ "   " ++ "END" ++ "\n"
          is_last_end_if := (1, false) :: st.is_last_end_if
          current_comp_segment_depth := 1 }, gst)) := by
  constructor
  · rfl
  · intro fuel hs ht fn_proto call_loc st gst hdr post n hn hne hif hel hwh
      hfor hint hrest hst
    obtain ⟨seg, d, ci, ni, stk, scopes, pop, fl, segs, lam⟩ := st
    simp only at hst
    subst hst
    have hmax : ¬ (n > (mkConfig hs ht).max_loop_count) := by
      have h65 : (mkConfig hs ht).max_loop_count = 65535 := rfl
      rw [h65]; omega
    simp only [compile_item, hne, hif, hel, hwh, hfor, hint, hrest,
      eq_false hmax, Bool.false_eq_true, eq_self_iff_true, not_true,
      if_false, if_true]
    rfl

/-- Witness for `c10_for_negative_count`: its general conjunct applied to
the header `for -2 ` with every hypothesis discharged concretely. -/
theorem c10_for_negative_count_witness :
    compile_item 4
        { cfg := mkConfig (fun _ => 0) (fun _ => 0), fn_proto := proto_plain,
          call_loc := loc_no_commit }
        (.block "for -2 " [.stmt "step"] "") st_probe initGState =
      .ok ({ st_probe with
        current_comp_segment := st_probe.current_comp_segment ++
          "   " ++ "REPEAT" ++ " " ++ toString (-2 : Int) ++ "-TIMES" ++ "\n" ++
          "      " ++ "STEP" ++ "\n" ++ "   " ++ "END" ++ "\n"
        is_last_end_if := (1, false) :: st_probe.is_last_end_if
        current_comp_segment_depth := 1 }, initGState) :=
  c10_for_negative_count.2 0 (fun _ => 0) (fun _ => 0) proto_plain
    loc_no_commit st_probe initGState "for -2 " "" (-2)
    (by decide) rfl rfl rfl rfl rfl rfl rfl rfl

/-- C7: `top_level_implicit_usage` is true iff the template parameter
list is empty, the prototype is not marked slicing, and it is not a
lambda; `parse_fn` computes exactly that flag; an eligible prototype is
compiled under an emitted name equal to its unadorned source name; and,
concretely, the uncalled `fn helper { step; }` is compiled eagerly when
parsed, so `HELPER` appears in the output. -/
theorem c7_top_level_implicit :
    (∀ (targs : List String) (s l : Bool),
      top_level_implicit_flag targs s l = true ↔
        (targs = [] ∧ s = false ∧ l = false)) ∧
    (∀ (cfg : Config) (d : FnDef) (gst : GState) (out : FnPrototypeAst × GState),
      parse_fn_top cfg d gst = .ok out →
      out.1.top_level_implicit_usage =
        top_level_implicit_flag d.template_args d.is_slicing false ∧
      out.1.name = d.name) ∧
    (∀ (fuel : Nat) (cfg : Config) (fn_proto : FnPrototypeAst)
      (call_loc : CallLocationAst) (gst : GState) (inst : FnInstanceAst)
      (gst' : GState),
      fn_proto.top_level_implicit_usage = true →
      compile_fn fuel cfg fn_proto call_loc gst = .ok (inst, gst') →
      inst.comp_name = fn_proto.name) ∧
    (run_cache_names 32 cfg0 prog_helper = some [("helper", "helper")] ∧
     run_output 32 cfg0 prog_helper = some ("HELPER\n   STEP\nEND\n\n", [])) := by
  refine ⟨?_, ?_, ?_, rfl, rfl⟩
  · intro targs s l
    cases targs <;> cases s <;> cases l <;> simp [top_level_implicit_flag]
  · intro cfg d gst out h
    unfold parse_fn_top at h
    split at h
    · cases h
    · split at h
      · cases h
      · split at h
        · cases h
        · injection h with h2
          rw [← h2]
          exact ⟨rfl, rfl⟩
  · intro fuel cfg fn_proto call_loc gst inst gst' hi h
    match fuel with
    | 0 => cases h
    | fuel + 1 =>
      rw [compile_fn] at h
      simp only [hi, if_true] at h
      split at h
      · injection h with h2
        obtain ⟨h3, _⟩ := Prod.mk.injEq .. |>.mp h2
        rw [← h3]
        have hmem := lookup_some_mem (by assumption)
        have hkey := gst.instaciated_fns.ok.2 _ hmem
        simpa [hi] using hkey
      · split at h
        · cases h
        · split at h
          · cases h
          · split at h
            · cases h
            · split at h
              · cases h
              · injection h with h2
                obtain ⟨h3, _⟩ := Prod.mk.injEq .. |>.mp h2
                rw [← h3]

/-- Witness for `c7_top_level_implicit`: its hypotheses discharged on the
concrete `helper` declaration - the parse fact at `helper_def`, the
emitted-name fact at `helper_proto`'s eager top-level compilation. -/
theorem c7_top_level_implicit_witness :
    (top_level_implicit_flag [] false false = true ↔
      (([] : List String) = [] ∧ false = false ∧ false = false)) ∧
    helper_parse_out.1.top_level_implicit_usage =
      top_level_implicit_flag helper_def.template_args helper_def.is_slicing false ∧
    helper_inst.comp_name = helper_proto.name :=
  ⟨c7_top_level_implicit.1 [] false false,
   (c7_top_level_implicit.2.1 cfg0 helper_def initGState helper_parse_out rfl).1,
   c7_top_level_implicit.2.2.1 8 cfg0 helper_proto (loc_top "helper")
     initGState helper_inst helper_gst rfl rfl⟩

/-- C2: emitted names are in bijection with the cache keys.  The cache is
a dict keyed by the emitted name, every stored instance records its own
emitted name (`CacheOk`, established at the insertion and write-back
sites), so two cached instances with the same emitted name are one entry
- hence their `(prototype name, template_values ⊕ inherited_values,
continuation)` keys agree - and two cached instances with differing keys
have distinct emitted names. -/
theorem c2_monomorphization_uniqueness (fuel : Nat) (cfg : Config)
    (defs : List FnDef) (gst : GState)
    (h : compile_source_file fuel cfg defs initGState = .ok gst) :
    ∀ p q : String × FnInstanceAst,
      p ∈ gst.instaciated_fns.entries → q ∈ gst.instaciated_fns.entries →
      ((p.2.comp_name = q.2.comp_name →
        p.2.name = q.2.name ∧
        p.2.instance_template_args ++ p.2.inherited_template_arg_values =
          q.2.instance_template_args ++ q.2.inherited_template_arg_values ∧
        p.2.commit_fn = q.2.commit_fn) ∧
      ((p.2.name,
          p.2.instance_template_args ++ p.2.inherited_template_arg_values,
          p.2.commit_fn) ≠
        (q.2.name,
          q.2.instance_template_args ++ q.2.inherited_template_arg_values,
          q.2.commit_fn) →
        p.2.comp_name ≠ q.2.comp_name)) := by
  intro p q hp hq
  have hsame : p.2.comp_name = q.2.comp_name → p = q := by
    intro hcn
    have hk1 := gst.instaciated_fns.ok.2 p hp
    have hk2 := gst.instaciated_fns.ok.2 q hq
    exact pairwise_key_unique gst.instaciated_fns.ok.1 p q hp hq
      (by rw [← hk1, ← hk2, hcn])
  constructor
  · intro hcn
    have := hsame hcn
    rw [this]
    exact ⟨rfl, rfl, rfl⟩
  · intro hne hcn
    exact hne (by rw [hsame hcn])

set_option maxHeartbeats 2000000 in
/-- Witness for `c2_monomorphization_uniqueness`: applied to the final
state of the `prog_reuse_after_pop` run, whose cache holds the two
entries `main` and the pushed `f` monomorph; their keys differ, so their
emitted names differ. -/
theorem c2_monomorphization_uniqueness_witness :
    reuse_entry0.2.comp_name ≠ reuse_entry1.2.comp_name :=
  (c2_monomorphization_uniqueness 64 cfg0 prog_reuse_after_pop gst_reuse rfl
    reuse_entry0 reuse_entry1 (by decide) (by decide)).2 (by decide)

theorem compile_stmt_eq_core (fuel : Nat) (ctx : Ctx) (acc0 : String)
    (st : CompSt) (gst : GState) :
    compile_stmt (fuel + 1) ctx acc0 st gst =
      compile_stmt_core fuel ctx (py_strip acc0) st gst := rfl

theorem compile_item_stmt_eq (fuel : Nat) (ctx : Ctx) (acc : String)
    (st : CompSt) (gst : GState) :
    compile_item (fuel + 1) ctx (.stmt acc) st gst =
      compile_stmt fuel ctx acc st gst := rfl

theorem compile_item_block_eq (fuel : Nat) (ctx : Ctx) (hdr : String)
    (body : List Item) (post : String) (st : CompSt) (gst : GState) :
    compile_item (fuel + 1) ctx (.block hdr body post) st gst =
      compile_item_core fuel ctx hdr body post st gst := rfl

theorem close_block_spec (cfg : Config) (s : CompSt) :
    (close_block cfg s).current_comp_segment_depth =
      s.current_comp_segment_depth - 1 ∧
    (close_block cfg s).is_last_end_if = s.is_last_end_if ∧
    (close_block cfg s).compiled_segments = s.compiled_segments ∧
    (close_block cfg s).current_comp_segment_index =
      s.current_comp_segment_index ∧
    (close_block cfg s).next_comp_segment_index = s.next_comp_segment_index ∧
    (close_block cfg s).comp_segment_stack = s.comp_segment_stack ∧
    (close_block cfg s).slice_stack_scopes = s.slice_stack_scopes := by
  unfold close_block
  dsimp only
  split
  · exact ⟨rfl, rfl, rfl, rfl, rfl, rfl, rfl⟩
  · exact ⟨rfl, rfl, rfl, rfl, rfl, rfl, rfl⟩

theorem get0_set (m : List (Int × Bool)) (d : Int) (b : Bool) (hd : d ≠ 0) :
    get_last_end_if (set_last_end_if m d b) 0 = get_last_end_if m 0 := by
  unfold get_last_end_if set_last_end_if
  simp [List.lookup, show ((0 : Int) == d) = false from
    beq_eq_false_iff_ne.mpr (Ne.symm hd)]

theorem store_len_lt {l : List String} {i : Nat} (s : String)
    (h : i < l.length) : (storeSegment l i s).length = l.length := by
  unfold storeSegment
  rw [if_pos h]
  exact List.length_set l i s

theorem store_len_ge {l : List String} {i : Nat} (s : String)
    (h : ¬ i < l.length) : (storeSegment l i s).length = l.length + 1 := by
  unfold storeSegment
  rw [if_neg h]
  simp

theorem same_seg_refl (st : CompSt) : SameSeg st st :=
  ⟨rfl, rfl, rfl, rfl, rfl⟩

theorem same_seg_trans {st st1 st2 : CompSt} (h1 : SameSeg st st1)
    (h2 : SameSeg st1 st2) : SameSeg st st2 := by
  obtain ⟨a1, b1, c1, d1, e1⟩ := h1
  obtain ⟨a2, b2, c2, d2, e2⟩ := h2
  exact ⟨a2.trans a1, b2.trans b1, c2.trans c1, d2.trans d1, e2.trans e1⟩

theorem seg_inv_of_same {st st' : CompSt} (h : SameSeg st st')
    (hi : SegInv st) : SegInv st' := by
  obtain ⟨a, b, c, d, e⟩ := h
  unfold SegInv at hi ⊢
  rw [a, b, c, d, e]
  exact hi

theorem seg_step_of_fields (st st' : CompSt)
    (h1 : st'.current_comp_segment_depth = st.current_comp_segment_depth)
    (h2 : st'.is_last_end_if = st.is_last_end_if)
    (h3 : st'.compiled_segments = st.compiled_segments)
    (h4 : st'.current_comp_segment_index = st.current_comp_segment_index)
    (h5 : st'.next_comp_segment_index = st.next_comp_segment_index)
    (h6 : st'.comp_segment_stack = st.comp_segment_stack)
    (h7 : st'.slice_stack_scopes = st.slice_stack_scopes) :
    SegStep 0 st st' := by
  refine ⟨h1, by rw [h2], by rw [h5, Nat.add_zero], fun _ => ⟨h3, h4, h5, h6, h7⟩, ?_⟩
  exact seg_inv_of_same ⟨h3, h4, h5, h6, h7⟩

theorem seg_step_zero_of_same {st st' : CompSt}
    (h1 : st'.current_comp_segment_depth = st.current_comp_segment_depth)
    (h2 : get_last_end_if st'.is_last_end_if 0 =
      get_last_end_if st.is_last_end_if 0)
    (hs : SameSeg st st') : SegStep 0 st st' :=
  ⟨h1, h2, by rw [hs.2.2.1, Nat.add_zero], fun _ => hs, seg_inv_of_same hs⟩

theorem seg_step_refl (st : CompSt) : SegStep 0 st st :=
  seg_step_of_fields st st rfl rfl rfl rfl rfl rfl rfl

theorem seg_step_emit (st : CompSt) (t : String) :
    SegStep 0 st (emit_line st t) :=
  seg_step_of_fields st (emit_line st t) rfl rfl rfl rfl rfl rfl rfl

theorem seg_step_trans {k m : Nat} {st st1 st2 : CompSt}
    (h1 : SegStep k st st1) (h2 : SegStep m st1 st2) :
    SegStep (k + m) st st2 := by
  obtain ⟨a1, b1, c1, d1, e1⟩ := h1
  obtain ⟨a2, b2, c2, d2, e2⟩ := h2
  refine ⟨a2.trans a1, b2.trans b1, by rw [c2, c1]; omega, ?_, fun hi => e2 (e1 hi)⟩
  intro hne
  exact same_seg_trans (d1 hne) (d2 (by rw [a1]; exact hne))

theorem seg_step_push (st : CompSt) (txt sn seg : String)
    (pops : List String) (hd : st.current_comp_segment_depth = 1) :
    SegStep 1 st
      { st with
        current_comp_segment := txt
        current_comp_segment_depth := 1
        current_comp_segment_index := st.next_comp_segment_index + 1
        next_comp_segment_index := st.next_comp_segment_index + 1
        comp_segment_stack := st.current_comp_segment_index :: st.comp_segment_stack
        slice_stack_scopes := sn :: st.slice_stack_scopes
        poped_stack_slices := pops
        compiled_segments :=
          storeSegment st.compiled_segments st.current_comp_segment_index seg } := by
  refine ⟨by rw [hd], rfl, rfl, fun hne => absurd hd hne, ?_⟩
  intro hi
  obtain ⟨h1, h2, h3, h4, h5⟩ := hi
  rcases h1 with ⟨hc, hn⟩ | ⟨hc, hn⟩
  · have hlen := store_len_lt (l := st.compiled_segments)
      (i := st.current_comp_segment_index) seg hc
    refine ⟨Or.inr ⟨by simp [hlen]; omega, by simp [hlen]; omega⟩, ?_, ?_, ?_, ?_⟩
    · intro p hp
      simp only [hlen]
      rcases List.mem_cons.mp hp with hp1 | hp2
      · omega
      · exact h2 p hp2
    · simp [h3]
    · intro hcon; cases hcon
    · intro _
      show (st.current_comp_segment_index :: st.comp_segment_stack).getLast? = some 0
      cases hstk : st.comp_segment_stack with
      | nil => rw [h4 hstk]; rfl
      | cons q qs =>
        have h0 := h5 (by rw [hstk]; exact List.cons_ne_nil q qs)
        rw [hstk] at h0
        rw [List.getLast?_cons_cons]
        exact h0
  · have hlen := store_len_ge (l := st.compiled_segments)
      (i := st.current_comp_segment_index) seg (by omega)
    refine ⟨Or.inr ⟨by simp [hlen]; omega, by simp [hlen]; omega⟩, ?_, ?_, ?_, ?_⟩
    · intro p hp
      simp only [hlen]
      rcases List.mem_cons.mp hp with hp1 | hp2
      · omega
      · have := h2 p hp2; omega
    · simp [h3]
    · intro hcon; cases hcon
    · intro _
      show (st.current_comp_segment_index :: st.comp_segment_stack).getLast? = some 0
      cases hstk : st.comp_segment_stack with
      | nil => rw [h4 hstk]; rfl
      | cons q qs =>
        have h0 := h5 (by rw [hstk]; exact List.cons_ne_nil q qs)
        rw [hstk] at h0
        rw [List.getLast?_cons_cons]
        exact h0

theorem seg_step_pop (st : CompSt) (prev : Nat) (rest : List Nat)
    (txt seg : String) (pops : List String)
    (hd : st.current_comp_segment_depth = 1)
    (hstack : st.comp_segment_stack = prev :: rest) :
    SegStep 0 st
      { st with
        current_comp_segment := txt
        current_comp_segment_depth := 1
        current_comp_segment_index := prev
        comp_segment_stack := rest
        slice_stack_scopes := st.slice_stack_scopes.tail
        poped_stack_slices := pops
        compiled_segments :=
          storeSegment st.compiled_segments st.current_comp_segment_index seg } := by
  refine ⟨by rw [hd], rfl, by rw [Nat.add_zero], fun hne => absurd hd hne, ?_⟩
  intro hi
  obtain ⟨h1, h2, h3, h4, h5⟩ := hi
  have hprev : prev < st.compiled_segments.length :=
    h2 prev (by rw [hstack]; exact List.mem_cons_self _ _)
  have hlen : st.compiled_segments.length ≤
      (storeSegment st.compiled_segments st.current_comp_segment_index seg).length := by
    rcases Nat.lt_or_ge st.current_comp_segment_index st.compiled_segments.length with
      hlt | hge
    · rw [store_len_lt seg hlt]
    · rw [store_len_ge seg (by omega)]; omega
  have hlen2 : (storeSegment st.compiled_segments
      st.current_comp_segment_index seg).length =
      st.next_comp_segment_index + 1 := by
    rcases h1 with ⟨hc, hn⟩ | ⟨hc, hn⟩
    · rw [store_len_lt seg hc]; omega
    · rw [store_len_ge seg (by omega)]; omega
  refine ⟨Or.inl ⟨by simp; omega, by simp [hlen2]⟩, ?_, ?_, ?_, ?_⟩
  · intro p hp
    replace hp : p ∈ rest := hp
    have hmem : p ∈ st.comp_segment_stack := by
      rw [hstack]; exact List.mem_cons_of_mem _ hp
    have := h2 p hmem
    show p < (storeSegment st.compiled_segments st.current_comp_segment_index seg).length
    omega
  · show rest.length = st.slice_stack_scopes.tail.length
    rw [hstack] at h3
    simp only [List.length_cons] at h3
    rw [List.length_tail]
    omega
  · intro hrest
    replace hrest : rest = [] := hrest
    show prev = 0
    have h0 := h5 (by rw [hstack]; exact List.cons_ne_nil prev rest)
    rw [hstack, hrest] at h0
    simpa using h0
  · intro hrest
    replace hrest : rest ≠ [] := hrest
    show rest.getLast? = some 0
    have h0 := h5 (by rw [hstack]; exact List.cons_ne_nil prev rest)
    rw [hstack] at h0
    cases rest with
    | nil => exact absurd rfl hrest
    | cons q qs =>
      rw [List.getLast?_cons_cons] at h0
      exact h0

theorem stmt_recall_shape (fuel : Nat) (ctx : Ctx) (acc : String)
    (st : CompSt) (gst : GState) (st' : CompSt) (gst' : GState)
    (h : stmt_recall fuel ctx acc st gst = .ok (st', gst')) :
    ∃ t, st' = emit_line st t := by
  unfold stmt_recall at h
  split at h
  · cases h
  · rename_i tem_args size_read heq
    by_cases hc : py_strip (if size_read = 0 then py_drop acc 6
        else py_drop acc (size_read + 1)) = ""
    · rw [if_neg (not_not_intro hc)] at h
      simp only [] at h
      split at h
      · cases h
      · split at h
        · cases h
        · injection h with h2
          obtain ⟨h3, _⟩ := Prod.mk.injEq .. |>.mp h2
          exact ⟨_, h3.symm⟩
    · rw [if_pos hc] at h
      cases h

theorem stmt_commit_shape (ctx : Ctx) (acc : String)
    (st : CompSt) (gst : GState) (st' : CompSt) (gst' : GState)
    (h : stmt_commit ctx acc st gst = .ok (st', gst')) :
    st' = st ∨ ∃ t, st' = emit_line st t := by
  unfold stmt_commit at h
  by_cases hs : ctx.fn_proto.is_slice_valid = true
  · rw [if_neg (not_not_intro hs)] at h
    split at h
    · simp only [] at h
      by_cases hc : py_strip (py_drop acc 6) = ""
      · rw [if_neg (not_not_intro hc)] at h
        injection h with h2
        obtain ⟨h3, _⟩ := Prod.mk.injEq .. |>.mp h2
        exact Or.inr ⟨_, h3.symm⟩
      · rw [if_pos hc] at h
        cases h
    · split at h
      · cases h
      · injection h with h2
        obtain ⟨h3, _⟩ := Prod.mk.injEq .. |>.mp h2
        exact Or.inl h3.symm
  · rw [if_pos hs] at h
    cases h

theorem stmt_push_resolved_step (fuel : Nat) (ctx : Ctx)
    (slice_name : String) (tem_args : List String) (acc : String)
    (st : CompSt) (gst : GState) (st' : CompSt) (gst' : GState)
    (h : stmt_push_resolved fuel ctx slice_name tem_args acc st gst =
      .ok (st', gst')) :
    SegStep 1 st st' := by
  unfold stmt_push_resolved at h
  by_cases h1 : st.slice_stack_scopes.contains slice_name = true
  · rw [if_pos h1] at h; cases h
  · rw [if_neg h1] at h
    by_cases h2 : st.current_comp_segment_depth = 1
    · rw [if_neg (not_not_intro h2)] at h
      try simp only [] at h
      split at h
      · cases h
      · rename_i callee_fn heq2
        by_cases h4 : callee_fn.is_slice_valid = true
        · rw [if_neg (not_not_intro h4)] at h
          try simp only [] at h
          split at h
          · cases h
          · injection h with h2i
            obtain ⟨h3, _⟩ := Prod.mk.injEq .. |>.mp h2i
            rw [← h3]
            exact seg_step_push st _ _ _ _ h2
        · rw [if_pos h4] at h
          cases h
    · rw [if_pos h2] at h
      cases h

theorem stmt_push_step (fuel : Nat) (ctx : Ctx) (acc : String)
    (st : CompSt) (gst : GState) (st' : CompSt) (gst' : GState)
    (h : stmt_push fuel ctx acc st gst = .ok (st', gst')) :
    SegStep 1 st st' := by
  unfold stmt_push at h
  try simp only [] at h
  split at h
  · cases h
  · split at h
    · split at h
      · cases h
      · split at h
        · cases h
        · split at h
          · cases h
          · exact stmt_push_resolved_step _ _ _ _ _ _ _ _ _ h
    · cases h

theorem stmt_pop_step (ctx : Ctx) (acc : String)
    (st : CompSt) (gst : GState) (st' : CompSt) (gst' : GState)
    (h : stmt_pop ctx acc st gst = .ok (st', gst')) :
    SegStep 0 st st' := by
  unfold stmt_pop at h
  try simp only [] at h
  split at h
  · cases h
  · split at h
    · cases h
    · split at h
      · cases h
      · by_cases h4 : st.slice_stack_scopes.headD "" = py_strip (py_drop acc 4)
        · rw [if_neg (not_not_intro h4)] at h
          by_cases h5 : st.current_comp_segment_depth = 1
          · rw [if_neg (not_not_intro h5)] at h
            try simp only [] at h
            split at h
            · cases h
            · rename_i prev stack_rest hstack
              split at h
              · cases h
              · injection h with h2
                obtain ⟨h3, _⟩ := Prod.mk.injEq .. |>.mp h2
                rw [← h3]
                exact seg_step_pop st _ _ _ _ _ h5 hstack
          · rw [if_pos h5] at h
            cases h
        · rw [if_pos h4] at h
          cases h

theorem stmt_call_resolved_shape (fuel : Nat) (ctx : Ctx)
    (tem_args : List String) (acc : String) (st : CompSt) (gst : GState)
    (st' : CompSt) (gst' : GState)
    (h : stmt_call_resolved fuel ctx tem_args acc st gst = .ok (st', gst')) :
    ∃ t, st' = emit_line st t := by
  unfold stmt_call_resolved at h
  split at h
  · cases h
  · try simp only [] at h
    split at h
    · cases h
    · injection h with h2
      obtain ⟨h3, _⟩ := Prod.mk.injEq .. |>.mp h2
      exact ⟨_, h3.symm⟩

theorem stmt_call_shape (fuel : Nat) (ctx : Ctx) (acc : String)
    (st : CompSt) (gst : GState) (st' : CompSt) (gst' : GState)
    (h : stmt_call fuel ctx acc st gst = .ok (st', gst')) :
    ∃ t, st' = emit_line st t := by
  unfold stmt_call at h
  split at h
  · cases h
  · split at h
    · cases h
    · split at h
      · cases h
      · exact stmt_call_resolved_shape _ _ _ _ _ _ _ _ h

theorem item_lambda_go_shape (fuel : Nat) (ctx : Ctx) (post : String)
    (st : CompSt) (lambda_proto : FnPrototypeAst) (gst : GState)
    (st' : CompSt) (gst' : GState)
    (h : item_lambda_go fuel ctx post st lambda_proto gst = .ok (st', gst')) :
    ∃ t ol, st' = { (emit_line st t) with owning_lambdas := ol } := by
  unfold item_lambda_go at h
  split at h
  · cases h
  · split at h
    · cases h
    · rename_i l_acc heq1 x tem_args read_size heq2
      by_cases hc : py_strip (if ¬ (read_size = 0) then py_drop l_acc (read_size + 1)
          else py_drop l_acc 1) = ""
      · rw [if_neg (not_not_intro hc)] at h
        try simp only [] at h
        split at h
        · cases h
        · injection h with h2
          obtain ⟨h3, _⟩ := Prod.mk.injEq .. |>.mp h2
          exact ⟨_, _, h3.symm⟩
      · rw [if_pos hc] at h
        cases h

theorem item_lambda_shape (fuel : Nat) (ctx : Ctx) (hdr : String)
    (body : List Item) (post : String) (st : CompSt) (gst : GState)
    (st' : CompSt) (gst' : GState)
    (h : item_lambda fuel ctx hdr body post st gst = .ok (st', gst')) :
    ∃ t ol, st' = { (emit_line st t) with owning_lambdas := ol } := by
  unfold item_lambda at h
  try simp only [] at h
  split at h
  · cases h
  · exact item_lambda_go_shape _ _ _ _ _ _ _ _ h

theorem stmt_core_step (fuel : Nat) (ctx : Ctx) (acc : String)
    (st : CompSt) (gst : GState) (st' : CompSt) (gst' : GState)
    (h : compile_stmt_core fuel ctx acc st gst = .ok (st', gst')) :
    SegStep (if is_assign_stmt ctx.cfg acc then 1 else 0) st st' := by
  unfold compile_stmt_core at h
  unfold is_assign_stmt
  by_cases h1 : acc = "++"
  · rw [if_pos h1] at h
    rw [if_pos h1, if_neg (by simp)]
    injection h with h2
    obtain ⟨h3, _⟩ := Prod.mk.injEq .. |>.mp h2
    rw [← h3]
    exact seg_step_emit st _
  · rw [if_neg h1] at h
    rw [if_neg h1]
    by_cases h2 : acc = "--"
    · rw [if_pos h2] at h
      rw [if_pos h2, if_neg (by simp)]
      injection h with h2i
      obtain ⟨h3, _⟩ := Prod.mk.injEq .. |>.mp h2i
      rw [← h3]
      exact seg_step_emit st _
    · rw [if_neg h2] at h
      rw [if_neg h2]
      by_cases h3 : acc = ""
      · rw [if_pos h3] at h
        rw [if_pos h3, if_neg (by simp)]
        injection h with h2i
        obtain ⟨h3i, _⟩ := Prod.mk.injEq .. |>.mp h2i
        rw [← h3i]
        exact seg_step_refl st
      · rw [if_neg h3] at h
        rw [if_neg h3]
        by_cases h4 : (ctx.cfg.builtin_fns.lookup acc).isSome = true
        · rw [if_pos h4] at h
          rw [if_pos h4, if_neg (by simp)]
          injection h with h2i
          obtain ⟨h3i, _⟩ := Prod.mk.injEq .. |>.mp h2i
          rw [← h3i]
          exact seg_step_emit st _
        · rw [if_neg h4] at h
          rw [if_neg h4]
          by_cases h5 : py_starts_with acc "no_op" = true
          · rw [if_pos h5] at h
            rw [if_pos h5, if_neg (by simp)]
            by_cases h5b : acc = "no_op"
            · rw [if_neg (not_not_intro h5b)] at h
              injection h with h2i
              obtain ⟨h3i, _⟩ := Prod.mk.injEq .. |>.mp h2i
              rw [← h3i]
              exact seg_step_refl st
            · rw [if_pos h5b] at h
              cases h
          · rw [if_neg h5] at h
            rw [if_neg h5]
            by_cases h6 : py_starts_with acc "recall" = true
            · rw [if_pos h6] at h
              rw [if_pos h6, if_neg (by simp)]
              obtain ⟨t, ht⟩ := stmt_recall_shape _ _ _ _ _ _ _ h
              rw [ht]
              exact seg_step_emit st _
            · rw [if_neg h6] at h
              rw [if_neg h6]
              by_cases h7 : py_starts_with acc "commit" = true
              · rw [if_pos h7] at h
                rw [if_pos h7, if_neg (by simp)]
                rcases stmt_commit_shape _ _ _ _ _ _ h with hst | ⟨t, ht⟩
                · rw [hst]; exact seg_step_refl st
                · rw [ht]; exact seg_step_emit st _
              · rw [if_neg h7] at h
                rw [if_neg h7]
                by_cases h8 : py_contains_char acc '=' = true
                · rw [if_pos h8] at h
                  rw [if_pos h8]
                  simpa using stmt_push_step _ _ _ _ _ _ _ h
                · rw [if_neg h8] at h
                  rw [if_neg h8]
                  by_cases h9 : py_starts_with acc "pop " = true
                  · rw [if_pos h9] at h
                    exact stmt_pop_step _ _ _ _ _ _ h
                  · rw [if_neg h9] at h
                    by_cases h10 : py_starts_with acc "if" = true ∨
                        py_starts_with acc "while" = true ∨
                        py_starts_with acc "for" = true
                    · rw [if_pos (by simpa using h10)] at h
                      cases h
                    · rw [if_neg (by simpa using h10)] at h
                      obtain ⟨t, ht⟩ := stmt_call_shape _ _ _ _ _ _ _ h
                      rw [ht]
                      exact seg_step_emit st _

theorem is_commit_not_assign (cfg : Config) (acc : String)
    (h : is_commit_stmt cfg acc = true) : is_assign_stmt cfg acc = false := by
  unfold is_commit_stmt at h
  unfold is_assign_stmt
  by_cases h1 : acc = "++"
  · rw [if_pos h1] at h; cases h
  · rw [if_neg h1] at h; rw [if_neg h1]
    by_cases h2 : acc = "--"
    · rw [if_pos h2] at h; cases h
    · rw [if_neg h2] at h; rw [if_neg h2]
      by_cases h3 : acc = ""
      · rw [if_pos h3] at h; cases h
      · rw [if_neg h3] at h; rw [if_neg h3]
        by_cases h4 : (cfg.builtin_fns.lookup acc).isSome = true
        · rw [if_pos h4] at h; cases h
        · rw [if_neg h4] at h; rw [if_neg h4]
          by_cases h5 : py_starts_with acc "no_op" = true
          · rw [if_pos h5] at h; cases h
          · rw [if_neg h5] at h; rw [if_neg h5]
            by_cases h6 : py_starts_with acc "recall" = true
            · rw [if_pos h6] at h; cases h
            · rw [if_neg h6] at h; rw [if_neg h6]
              by_cases h7 : py_starts_with acc "commit" = true
              · rw [if_pos h7]
              · rw [if_neg h7] at h; cases h

theorem stmt_commit_emit (ctx : Ctx) (acc : String) (st : CompSt)
    (gst : GState) (dest : CallableAst)
    (hc : is_commit_stmt ctx.cfg acc = true)
    (hdest : ctx.call_loc.callee_commit_dest_fn = some dest)
    (hslice : ctx.fn_proto.is_slice_valid = true) :
    stmt_commit ctx acc st gst = .ok (emit_line st dest.comp_name, gst) := by
  unfold is_commit_stmt at hc
  split at hc
  · cases hc
  · split at hc
    · cases hc
    · split at hc
      · cases hc
      · split at hc
        · cases hc
        · split at hc
          · cases hc
          · split at hc
            · cases hc
            · split at hc
              · unfold stmt_commit
                rw [if_neg (not_not_intro hslice), hdest]
                simp only []
                rw [if_neg (not_not_intro (by simpa using hc))]
              · cases hc

theorem block_close_step (cfg : Config) (st st1 st2 : CompSt) (k : Nat) (b : Bool)
    (hd : 1 ≤ st.current_comp_segment_depth)
    (hstep : SegStep k st1 st2)
    (h1 : st1.current_comp_segment_depth = st.current_comp_segment_depth + 1)
    (h2 : st1.is_last_end_if =
      set_last_end_if st.is_last_end_if st.current_comp_segment_depth b)
    (h3 : SameSeg st st1) :
    SegStep 0 st (close_block cfg st2) := by
  obtain ⟨cd, cl, cc, ci, cn, cs, cso⟩ := close_block_spec cfg st2
  have hne1 : ¬ st1.current_comp_segment_depth = 1 := by rw [h1]; omega
  have hsame12 := hstep.2.2.2.1 hne1
  have hget01 : get_last_end_if st1.is_last_end_if 0 =
      get_last_end_if st.is_last_end_if 0 := by
    rw [h2]; exact get0_set _ _ _ (by omega)
  refine ⟨?_, ?_, ?_, ?_, ?_⟩
  · rw [cd, hstep.1, h1]; omega
  · rw [cl, hstep.2.1, hget01]
  · rw [cn, hsame12.2.2.1, h3.2.2.1, Nat.add_zero]
  · intro _
    exact same_seg_trans (same_seg_trans h3 hsame12) ⟨cc, ci, cn, cs, cso⟩
  · exact seg_inv_of_same
      (same_seg_trans (same_seg_trans h3 hsame12) ⟨cc, ci, cn, cs, cso⟩)

theorem item_if_step (fuel : Nat) (ctx : Ctx) (hdr : String)
    (body : List Item) (st : CompSt) (gst : GState) (st' : CompSt)
    (gst' : GState)
    (hd : 1 ≤ st.current_comp_segment_depth)
    (hna : no_assign_items body = true)
    (IH : ∀ (its : List Item) (s1 : CompSt) (g1 : GState) (s2 : CompSt)
      (g2 : GState), no_assign_items its = true →
      1 ≤ s1.current_comp_segment_depth →
      compile_items fuel ctx its s1 g1 = .ok (s2, g2) →
      SegStep (countPush ctx.cfg its) s1 s2)
    (h : item_if fuel ctx hdr body st gst = .ok (st', gst')) :
    SegStep 0 st st' := by
  unfold item_if at h
  try simp only [] at h
  split at h
  · cases h
  · rename_i x cond consumed heq
    by_cases hc : py_strip (py_drop (py_drop hdr 3) consumed) = ""
    · rw [if_neg (not_not_intro hc)] at h
      try simp only [] at h
      split at h
      · cases h
      · rename_i st2 gst2 heq2
        injection h with h2
        obtain ⟨h3, _⟩ := Prod.mk.injEq .. |>.mp h2
        rw [← h3]
        have hstep := IH body _ _ _ _ hna
          (by show 1 ≤ st.current_comp_segment_depth + 1; omega) heq2
        exact block_close_step ctx.cfg st _ _ _ true hd hstep rfl rfl
          ⟨rfl, rfl, rfl, rfl, rfl⟩
    · rw [if_pos hc] at h
      cases h

theorem item_while_step (fuel : Nat) (ctx : Ctx) (hdr : String)
    (body : List Item) (st : CompSt) (gst : GState) (st' : CompSt)
    (gst' : GState)
    (hd : 1 ≤ st.current_comp_segment_depth)
    (hna : no_assign_items body = true)
    (IH : ∀ (its : List Item) (s1 : CompSt) (g1 : GState) (s2 : CompSt)
      (g2 : GState), no_assign_items its = true →
      1 ≤ s1.current_comp_segment_depth →
      compile_items fuel ctx its s1 g1 = .ok (s2, g2) →
      SegStep (countPush ctx.cfg its) s1 s2)
    (h : item_while fuel ctx hdr body st gst = .ok (st', gst')) :
    SegStep 0 st st' := by
  unfold item_while at h
  try simp only [] at h
  split at h
  · cases h
  · rename_i x cond consumed heq
    by_cases hc : py_strip (py_drop (py_drop hdr 6) consumed) = ""
    · rw [if_neg (not_not_intro hc)] at h
      try simp only [] at h
      split at h
      · cases h
      · rename_i st2 gst2 heq2
        injection h with h2
        obtain ⟨h3, _⟩ := Prod.mk.injEq .. |>.mp h2
        rw [← h3]
        have hstep := IH body _ _ _ _ hna
          (by show 1 ≤ st.current_comp_segment_depth + 1; omega) heq2
        exact block_close_step ctx.cfg st _ _ _ false hd hstep rfl rfl
          ⟨rfl, rfl, rfl, rfl, rfl⟩
    · rw [if_pos hc] at h
      cases h

theorem item_else_step (fuel : Nat) (ctx : Ctx) (hdr : String)
    (body : List Item) (st : CompSt) (gst : GState) (st' : CompSt)
    (gst' : GState)
    (hd : 1 ≤ st.current_comp_segment_depth)
    (hna : no_assign_items body = true)
    (IH : ∀ (its : List Item) (s1 : CompSt) (g1 : GState) (s2 : CompSt)
      (g2 : GState), no_assign_items its = true →
      1 ≤ s1.current_comp_segment_depth →
      compile_items fuel ctx its s1 g1 = .ok (s2, g2) →
      SegStep (countPush ctx.cfg its) s1 s2)
    (h : item_else fuel ctx hdr body st gst = .ok (st', gst')) :
    SegStep 0 st st' := by
  unfold item_else at h
  try simp only [] at h
  by_cases hg : ¬ get_last_end_if st.is_last_end_if st.current_comp_segment_depth ∨
      ¬ (py_len st.current_comp_segment > py_len (cgkw ctx.cfg "end") + 1) ∨
      ¬ (py_take_right st.current_comp_segment (py_len (cgkw ctx.cfg "end") + 1) =
          cgkw ctx.cfg "end" ++ "\n")
  · rw [if_pos hg] at h
    cases h
  · rw [if_neg hg] at h
    by_cases hc : py_strip (py_drop hdr 4) = ""
    · rw [if_neg (not_not_intro hc)] at h
      try simp only [] at h
      split at h
      · cases h
      · rename_i st2 gst2 heq2
        injection h with h2
        obtain ⟨h3, _⟩ := Prod.mk.injEq .. |>.mp h2
        rw [← h3]
        have hstep := IH body _ _ _ _ hna
          (by show 1 ≤ st.current_comp_segment_depth + 1; omega) heq2
        exact block_close_step ctx.cfg st _ _ _ false hd hstep rfl rfl
          ⟨rfl, rfl, rfl, rfl, rfl⟩
    · rw [if_pos hc] at h
      cases h

theorem item_for_step (fuel : Nat) (ctx : Ctx) (hdr : String)
    (body : List Item) (st : CompSt) (gst : GState) (st' : CompSt)
    (gst' : GState)
    (hd : 1 ≤ st.current_comp_segment_depth)
    (hna : no_assign_items body = true)
    (IH : ∀ (its : List Item) (s1 : CompSt) (g1 : GState) (s2 : CompSt)
      (g2 : GState), no_assign_items its = true →
      1 ≤ s1.current_comp_segment_depth →
      compile_items fuel ctx its s1 g1 = .ok (s2, g2) →
      SegStep (countPush ctx.cfg its) s1 s2)
    (h : item_for fuel ctx hdr body st gst = .ok (st', gst')) :
    SegStep 0 st st' := by
  unfold item_for at h
  try simp only [] at h
  split at h
  · cases h
  · rename_i count heq
    by_cases hc : py_strip (py_drop (py_drop hdr 4)
        (py_len (toString count))) = ""
    · rw [if_neg (not_not_intro hc)] at h
      split at h
      · cases h
      · rename_i gst2 heq2
        try simp only [] at h
        split at h
        · cases h
        · rename_i st2 gst3 heq3
          injection h with h2
          obtain ⟨h3, _⟩ := Prod.mk.injEq .. |>.mp h2
          rw [← h3]
          have hstep := IH body _ _ _ _ hna
            (by show 1 ≤ st.current_comp_segment_depth + 1; omega) heq3
          exact block_close_step ctx.cfg st _ _ _ false hd hstep rfl rfl
            ⟨rfl, rfl, rfl, rfl, rfl⟩
    · rw [if_pos hc] at h
      cases h

theorem item_core_step (fuel : Nat) (ctx : Ctx) (hdr : String)
    (body : List Item) (post : String) (st : CompSt) (gst : GState)
    (st' : CompSt) (gst' : GState)
    (hna : no_assign_item (.block hdr body post) = true)
    (hd : 1 ≤ st.current_comp_segment_depth)
    (IH : ∀ (its : List Item) (s1 : CompSt) (g1 : GState) (s2 : CompSt)
      (g2 : GState), no_assign_items its = true →
      1 ≤ s1.current_comp_segment_depth →
      compile_items fuel ctx its s1 g1 = .ok (s2, g2) →
      SegStep (countPush ctx.cfg its) s1 s2)
    (h : compile_item_core fuel ctx hdr body post st gst = .ok (st', gst')) :
    SegStep 0 st st' := by
  have hna2 := hna
  unfold no_assign_item at hna2
  rw [Bool.and_eq_true] at hna2
  obtain ⟨hne, hnab⟩ := hna2
  unfold compile_item_core at h
  rw [if_neg (by simpa using hne)] at h
  split at h
  · exact item_if_step fuel ctx hdr body st gst st' gst' hd hnab IH h
  · split at h
    · exact item_else_step fuel ctx hdr body st gst st' gst' hd hnab IH h
    · split at h
      · exact item_while_step fuel ctx hdr body st gst st' gst' hd hnab IH h
      · split at h
        · exact item_for_step fuel ctx hdr body st gst st' gst' hd hnab IH h
        · split at h
          · cases h
          · obtain ⟨t, ol, hst⟩ := item_lambda_shape _ _ _ _ _ _ _ _ _ h
            rw [hst]
            exact seg_step_of_fields _ _ rfl rfl rfl rfl rfl rfl rfl

theorem seg_step_items : ∀ (fuel : Nat),
    (∀ (ctx : Ctx) (it : Item) (st : CompSt) (gst : GState) (st' : CompSt)
      (gst' : GState), no_assign_item it = true →
      1 ≤ st.current_comp_segment_depth →
      compile_item fuel ctx it st gst = .ok (st', gst') →
      SegStep (countPushItem ctx.cfg it) st st') ∧
    (∀ (ctx : Ctx) (its : List Item) (st : CompSt) (gst : GState)
      (st' : CompSt) (gst' : GState), no_assign_items its = true →
      1 ≤ st.current_comp_segment_depth →
      compile_items fuel ctx its st gst = .ok (st', gst') →
      SegStep (countPush ctx.cfg its) st st') := by
  intro fuel
  induction fuel with
  | zero =>
    constructor
    · intro ctx it st gst st' gst' _ _ h
      have h2 : (Except.error Err.fuel : Except Err (CompSt × GState)) =
        .ok (st', gst') := h
      cases h2
    · intro ctx its st gst st' gst' _ _ h
      have h2 : (Except.error Err.fuel : Except Err (CompSt × GState)) =
        .ok (st', gst') := h
      cases h2
  | succ fuel ih =>
    obtain ⟨ih_item, ih_items⟩ := ih
    constructor
    · intro ctx it st gst st' gst' hna hd h
      cases it with
      | stmt acc =>
        have h2 : compile_stmt fuel ctx acc st gst = .ok (st', gst') := h
        cases fuel with
        | zero =>
          have h3 : (Except.error Err.fuel : Except Err (CompSt × GState)) =
            .ok (st', gst') := h2
          cases h3
        | succ fuel2 =>
          have h3 : compile_stmt_core fuel2 ctx (py_strip acc) st gst =
            .ok (st', gst') := h2
          have hs := stmt_core_step fuel2 ctx (py_strip acc) st gst st' gst' h3
          simpa [countPushItem] using hs
      | block hdr body post =>
        have h2 : compile_item_core fuel ctx hdr body post st gst =
          .ok (st', gst') := h
        have hs := item_core_step fuel ctx hdr body post st gst st' gst'
          hna hd (ih_items ctx) h2
        simpa [countPushItem] using hs
    · intro ctx its st gst st' gst' hna hd h
      cases its with
      | nil =>
        have h2 : (Except.ok (st, gst) : Except Err (CompSt × GState)) =
          .ok (st', gst') := h
        injection h2 with h3
        obtain ⟨h4, _⟩ := Prod.mk.injEq .. |>.mp h3
        rw [← h4]
        exact seg_step_refl st
      | cons it rest =>
        have h2 : (match compile_item fuel ctx it st gst with
          | Except.error e => (Except.error e : Except Err (CompSt × GState))
          | Except.ok (sa, ga) => compile_items fuel ctx rest sa ga) =
          .ok (st', gst') := h
        unfold no_assign_items at hna
        rw [Bool.and_eq_true] at hna
        obtain ⟨hna1, hna2⟩ := hna
        cases hx : compile_item fuel ctx it st gst with
        | error e => rw [hx] at h2; cases h2
        | ok p =>
          obtain ⟨sa, ga⟩ := p
          rw [hx] at h2
          have h3 : compile_items fuel ctx rest sa ga = .ok (st', gst') := h2
          have s1 := ih_item ctx it st gst sa ga hna1 hd hx
          have hd2 : 1 ≤ sa.current_comp_segment_depth := by
            rw [s1.1]; exact hd
          have s2 := ih_items ctx rest sa ga st' gst' hna2 hd2 h3
          have := seg_step_trans s1 s2
          simpa [countPush] using this

theorem compile_fn_succ_eq (fuel : Nat) (cfg : Config)
    (fn_proto : FnPrototypeAst) (call_loc : CallLocationAst) (gst : GState) :
    compile_fn (fuel + 1) cfg fn_proto call_loc gst =
      compile_fn_body fuel cfg fn_proto call_loc gst := rfl

theorem no_assign_items_append (a b : List Item) :
    no_assign_items (a ++ b) = (no_assign_items a && no_assign_items b) := by
  induction a with
  | nil => simp [no_assign_items]
  | cons it rest ih =>
    simp [no_assign_items, ih, Bool.and_assoc]

theorem countPush_append (cfg : Config) (a b : List Item) :
    countPush cfg (a ++ b) = countPush cfg a + countPush cfg b := by
  induction a with
  | nil => simp [countPush]
  | cons it rest ih =>
    simp [countPush, ih]
    omega

theorem last_commit_decomp (cfg : Config) (its : List Item)
    (h : last_is_commit cfg its = true) :
    ∃ pre acc, its = pre ++ [Item.stmt acc] ∧
      is_commit_stmt cfg (py_strip acc) = true := by
  unfold last_is_commit at h
  cases hl : its.getLast? with
  | none => rw [hl] at h; cases h
  | some it =>
    rw [hl] at h
    have hits : its.dropLast ++ [it] = its := List.dropLast_append_getLast? _ hl
    cases it with
    | stmt acc =>
      have h2 : is_commit_stmt cfg (py_strip acc) = true := h
      exact ⟨its.dropLast, acc, hits.symm, h2⟩
    | block hdr body post =>
      have h2 : (false : Bool) = true := h
      cases h2

theorem items_split_last : ∀ (pre : List Item) (fuel : Nat) (ctx : Ctx)
    (last : Item) (st : CompSt) (gst : GState) (st' : CompSt) (gst' : GState),
    compile_items fuel ctx (pre ++ [last]) st gst = .ok (st', gst') →
    ∃ (fuel1 : Nat) (st1 : CompSt) (gst1 : GState),
      compile_items fuel ctx pre st gst = .ok (st1, gst1) ∧
      compile_item fuel1 ctx last st1 gst1 = .ok (st', gst') := by
  intro pre
  induction pre with
  | nil =>
    intro fuel ctx last st gst st' gst' h
    cases fuel with
    | zero =>
      have h2 : (Except.error Err.fuel : Except Err (CompSt × GState)) =
        .ok (st', gst') := h
      cases h2
    | succ fuel =>
      have h2 : (match compile_item fuel ctx last st gst with
        | Except.error e => (Except.error e : Except Err (CompSt × GState))
        | Except.ok (sa, ga) => compile_items fuel ctx [] sa ga) =
        .ok (st', gst') := h
      cases hx : compile_item fuel ctx last st gst with
      | error e => rw [hx] at h2; cases h2
      | ok p =>
        obtain ⟨sa, ga⟩ := p
        rw [hx] at h2
        have h3 : compile_items fuel ctx [] sa ga = .ok (st', gst') := h2
        cases fuel with
        | zero =>
          have h4 : (Except.error Err.fuel : Except Err (CompSt × GState)) =
            .ok (st', gst') := h3
          cases h4
        | succ fuel2 =>
          have h4 : (Except.ok (sa, ga) : Except Err (CompSt × GState)) =
            .ok (st', gst') := h3
          injection h4 with h5
          obtain ⟨h6, h7⟩ := Prod.mk.injEq .. |>.mp h5
          refine ⟨fuel2 + 1, st, gst, rfl, ?_⟩
          rw [h6, h7] at hx
          exact hx
  | cons p pre ih =>
    intro fuel ctx last st gst st' gst' h
    cases fuel with
    | zero =>
      have h2 : (Except.error Err.fuel : Except Err (CompSt × GState)) =
        .ok (st', gst') := h
      cases h2
    | succ fuel =>
      have h2 : (match compile_item fuel ctx p st gst with
        | Except.error e => (Except.error e : Except Err (CompSt × GState))
        | Except.ok (sa, ga) => compile_items fuel ctx (pre ++ [last]) sa ga) =
        .ok (st', gst') := h
      cases hx : compile_item fuel ctx p st gst with
      | error e => rw [hx] at h2; cases h2
      | ok q =>
        obtain ⟨sa, ga⟩ := q
        rw [hx] at h2
        have h3 : compile_items fuel ctx (pre ++ [last]) sa ga =
          .ok (st', gst') := h2
        obtain ⟨fuel1, st1, gst1, hpre, hlast⟩ :=
          ih fuel ctx last sa ga st' gst' h3
        refine ⟨fuel1, st1, gst1, ?_, hlast⟩
        show (match compile_item fuel ctx p st gst with
          | Except.error e => (Except.error e : Except Err (CompSt × GState))
          | Except.ok (sa, ga) => compile_items fuel ctx pre sa ga) =
          .ok (st1, gst1)
        rw [hx]
        exact hpre

theorem store_head0 (l : List String) (s : String) :
    (storeSegment l 0 s).head? = some s := by
  unfold storeSegment
  split
  · cases l with
    | nil => simp at *
    | cons a rest => rfl
  · cases l with
    | nil => rfl
    | cons a rest => simp at *

theorem close_block_cur_of_get_false (cfg : Config) (s : CompSt)
    (hg : get_last_end_if s.is_last_end_if
      (s.current_comp_segment_depth - 1) = false) :
    (close_block cfg s).current_comp_segment =
      s.current_comp_segment ++ indent (s.current_comp_segment_depth - 1) ++
        cgkw cfg "end" ++ "\n" := by
  unfold close_block
  dsimp only
  rw [if_pos (by simp [hg])]

theorem stmt_core_commit_inv (fuel : Nat) (ctx : Ctx) (acc : String)
    (st : CompSt) (gst : GState) (st' : CompSt) (gst' : GState)
    (dest : CallableAst)
    (hc : is_commit_stmt ctx.cfg acc = true)
    (hdest : ctx.call_loc.callee_commit_dest_fn = some dest)
    (h : compile_stmt_core fuel ctx acc st gst = .ok (st', gst')) :
    st' = emit_line st dest.comp_name := by
  unfold is_commit_stmt at hc
  unfold compile_stmt_core at h
  split at hc
  · cases hc
  · rename_i h1
    rw [if_neg h1] at h
    split at hc
    · cases hc
    · rename_i h2
      rw [if_neg h2] at h
      split at hc
      · cases hc
      · rename_i h3
        rw [if_neg h3] at h
        split at hc
        · cases hc
        · rename_i h4
          rw [if_neg h4] at h
          split at hc
          · cases hc
          · rename_i h5
            rw [if_neg h5] at h
            split at hc
            · cases hc
            · rename_i h6
              rw [if_neg h6] at h
              split at hc
              · rename_i h7
                rw [if_pos h7] at h
                unfold stmt_commit at h
                by_cases hs : ctx.fn_proto.is_slice_valid = true
                · rw [if_neg (not_not_intro hs), hdest] at h
                  have h8 : (if ¬ (py_strip (py_drop acc 6) = "") then
                      (Except.error (Err.ce "syntax error - expected a ';' after a commit keyword") :
                        Except Err (CompSt × GState))
                    else .ok (emit_line st dest.comp_name, gst)) = .ok (st', gst') := h
                  rw [if_neg (not_not_intro (by simpa using hc))] at h8
                  injection h8 with h9
                  obtain ⟨h10, _⟩ := Prod.mk.injEq .. |>.mp h9
                  exact h10.symm
                · rw [if_pos hs] at h
                  cases h
              · cases hc

set_option maxHeartbeats 1000000 in
/-- C4 amended: a freshly compiled (cache-missing) instance of a prototype
called with an active continuation `dest`, whose substituted body holds no
`=`-headed block (the unfinished slice-assignment-to-a-block construct of
source lines 520-522), has exactly one more compiled segment than the
number of root-level `push` statements of that body; and when the body
ends with a well-formed `commit`, the tail entry of `compiled_segments`
(the entry segment - the list is stored highest-index-first) ends with the
emitted call to `dest.comp_name` followed by the dialect `end` keyword and
the blank separator line.  The original claim's `if and only if` is
weakened to this forward implication (see the counterexample). -/
theorem c4_amended (fuel : Nat) (cfg : Config) (fn_proto : FnPrototypeAst)
    (call_loc : CallLocationAst) (gst : GState) (inst : FnInstanceAst)
    (gst2 : GState) (dest : CallableAst)
    (hdest : call_loc.callee_commit_dest_fn = some dest)
    (hmiss : gst.instaciated_fns.lookup
      (if fn_proto.top_level_implicit_usage then fn_proto.name
       else gen_comp_name cfg fn_proto call_loc 0) = none)
    (hna : no_assign_items (instance_body fn_proto call_loc) = true)
    (hok : compile_fn fuel cfg fn_proto call_loc gst = .ok (inst, gst2)) :
    inst.compiled_segments.length =
      countPush cfg (instance_body fn_proto call_loc) + 1 ∧
    (last_is_commit cfg (instance_body fn_proto call_loc) = true →
      ∃ seg, inst.compiled_segments.getLast? = some seg ∧
        List.IsSuffix
          ("   " ++ dest.comp_name ++ "\n" ++ cgkw cfg "end" ++ "\n\n").toList
          seg.toList) := by
  cases fuel with
  | zero =>
    have h0 : (Except.error Err.fuel : Except Err (FnInstanceAst × GState)) =
      .ok (inst, gst2) := hok
    cases h0
  | succ fuel =>
    have h : compile_fn_body fuel cfg fn_proto call_loc gst =
      .ok (inst, gst2) := hok
    unfold compile_fn_body at h
    try simp only [] at h
    split at h
    · rename_i inst0 heq
      rw [hmiss] at heq
      cases heq
    · rename_i heq
      by_cases harity : fn_proto.template_args.length =
        call_loc.template_arg_values.length
      · rw [if_neg (not_not_intro harity)] at h
        by_cases hinh : call_loc.inherited_template_args.length >
          call_loc.inherited_template_arg_values.length
        · rw [if_pos hinh] at h
          cases h
        · rw [if_neg hinh] at h
          try simp only [] at h
          split at h
          · cases h
          · rename_i st_f gst_f heqc
            by_cases hsc : (close_block cfg st_f).slice_stack_scopes = []
            · rw [if_neg (not_not_intro hsc)] at h
              try simp only [] at h
              injection h with h2
              obtain ⟨h3, _⟩ := Prod.mk.injEq .. |>.mp h2
              have hs := (seg_step_items fuel).2
                { cfg := cfg, fn_proto := fn_proto, call_loc := call_loc }
                _ _ _ _ _ hna (le_refl _) heqc
              have hnext : st_f.next_comp_segment_index =
                  countPush cfg (instance_body fn_proto call_loc) := by
                have := hs.2.2.1
                simpa using this
              have hinv : SegInv st_f := hs.2.2.2.2
                ⟨Or.inr ⟨rfl, rfl⟩, fun p hp => absurd hp (List.not_mem_nil p),
                 rfl, fun _ => rfl, fun hcon => absurd rfl hcon⟩
              have hscopes : st_f.slice_stack_scopes = [] := by
                have hp := (close_block_spec cfg st_f).2.2.2.2.2.2
                rw [hp] at hsc
                exact hsc
              have hstack : st_f.comp_segment_stack = [] :=
                List.eq_nil_of_length_eq_zero
                  (by rw [hinv.2.2.1, hscopes]; rfl)
              have hcur : st_f.current_comp_segment_index = 0 :=
                hinv.2.2.2.1 hstack
              constructor
              · rw [← h3]
                show (storeSegment (close_block cfg st_f).compiled_segments
                    (close_block cfg st_f).current_comp_segment_index
                    ((close_block cfg st_f).current_comp_segment ++ "\n")).reverse.length =
                  countPush cfg (instance_body fn_proto call_loc) + 1
                rw [List.length_reverse,
                  (close_block_spec cfg st_f).2.2.1,
                  (close_block_spec cfg st_f).2.2.2.1, hcur]
                rcases hinv.1 with ⟨hlt, hlen⟩ | ⟨heq0, hlen⟩
                · rw [hcur] at hlt
                  rw [store_len_lt _ hlt]
                  rw [hnext] at hlen
                  omega
                · rw [hcur] at heq0
                  rw [store_len_ge _ (by omega)]
                  rw [hnext] at hlen
                  omega
              · intro hlast
                obtain ⟨pre, acc, hdecomp, hcommit⟩ :=
                  last_commit_decomp cfg _ hlast
                have hbody : instance_body fn_proto call_loc =
                  subst_items
                    ((fn_proto.template_args ++ call_loc.inherited_template_args).zip
                      (call_loc.template_arg_values ++
                        call_loc.inherited_template_arg_values))
                    fn_proto.body := rfl
                rw [← hbody] at heqc
                rw [hdecomp] at heqc
                obtain ⟨fuel1, st1, gstp, hpre, hlastitem⟩ :=
                  items_split_last pre fuel _ _ _ _ _ _ heqc
                have hna_pre : no_assign_items pre = true := by
                  rw [hdecomp, no_assign_items_append, Bool.and_eq_true] at hna
                  exact hna.1
                have hspre := (seg_step_items fuel).2
                  { cfg := cfg, fn_proto := fn_proto, call_loc := call_loc }
                  pre _ _ _ _ hna_pre (le_refl _) hpre
                have hdepth1 : st1.current_comp_segment_depth = 1 := by
                  have hv := hspre.1
                  simpa using hv
                cases fuel1 with
                | zero =>
                  have h0 : (Except.error Err.fuel :
                    Except Err (CompSt × GState)) = .ok (st_f, gst_f) := hlastitem
                  cases h0
                | succ f1 =>
                  have hstmt : compile_stmt f1
                    { cfg := cfg, fn_proto := fn_proto, call_loc := call_loc }
                    acc st1 gstp = .ok (st_f, gst_f) := hlastitem
                  cases f1 with
                  | zero =>
                    have h0 : (Except.error Err.fuel :
                      Except Err (CompSt × GState)) = .ok (st_f, gst_f) := hstmt
                    cases h0
                  | succ f2 =>
                    have hcore : compile_stmt_core f2
                      { cfg := cfg, fn_proto := fn_proto, call_loc := call_loc }
                      (py_strip acc) st1 gstp = .ok (st_f, gst_f) := hstmt
                    have hemit : st_f = emit_line st1 dest.comp_name :=
                      stmt_core_commit_inv f2 _ _ _ _ _ _ dest hcommit hdest hcore
                    have hdf : st_f.current_comp_segment_depth = 1 := by
                      rw [hemit]; exact hdepth1
                    have hget0 : get_last_end_if st_f.is_last_end_if 0 = false := by
                      have hv := hs.2.1
                      simpa using hv
                    have hd0 : st_f.current_comp_segment_depth - 1 = (0 : Int) := by
                      rw [hdf]; decide
                    have hgetc : get_last_end_if st_f.is_last_end_if
                        (st_f.current_comp_segment_depth - 1) = false := by
                      rw [hd0]; exact hget0
                    have hcurtext := close_block_cur_of_get_false cfg st_f hgetc
                    rw [← h3]
                    refine ⟨(close_block cfg st_f).current_comp_segment ++ "\n", ?_, ?_⟩
                    · show (storeSegment (close_block cfg st_f).compiled_segments
                          (close_block cfg st_f).current_comp_segment_index
                          ((close_block cfg st_f).current_comp_segment ++ "\n")).reverse.getLast? =
                        some ((close_block cfg st_f).current_comp_segment ++ "\n")
                      rw [List.getLast?_reverse,
                        (close_block_spec cfg st_f).2.2.1,
                        (close_block_spec cfg st_f).2.2.2.1, hcur]
                      exact store_head0 _ _
                    · rw [hcurtext, hd0, hemit]
                      show List.IsSuffix
                        ("   " ++ dest.comp_name ++ "\n" ++ cgkw cfg "end" ++ "\n\n").toList
                        ((st1.current_comp_segment ++
                          indent st1.current_comp_segment_depth ++
                          dest.comp_name ++ "\n" ++ indent 0 ++ cgkw cfg "end" ++
                          "\n" ++ "\n").toList)
                      rw [hdepth1]
                      rw [show indent (1 : Int) = "   " from rfl,
                        show indent (0 : Int) = "" from rfl]
                      refine ⟨st1.current_comp_segment.toList, ?_⟩
                      rw [show ("\n\n" : String) = "\n" ++ "\n" from rfl]
                      simp only [String.toList, String.data_append, List.append_assoc,
                        List.nil_append]
            · rw [if_pos hsc] at h
              cases h
      · rw [if_pos harity] at h
        cases h

set_option maxHeartbeats 1000000 in
/-- C4 counterexample: in `fn f slicing \x7b commit; no_op; \x7d fn main
\x7b s = push f; pop s; \x7d` the compiled instance of `f` has exactly one
segment, and that segment ends with the call to the continuation
`main_seg1<ch-none-th-none>` - yet the body of `f` does not end with
`commit` (its last statement is `no_op`), refuting the claim's "if and
only if". -/
theorem c4_counterexample :
    (run_instance 64 cfg0 prog_commit_noop "f<ch0-th-none>").map
      (fun i => i.compiled_segments) =
      some ["f<ch0-th-none>\n   main_seg1<ch-none-th-none>\nEND\n\n"] ∧
    (prog_commit_noop.headD
      { name := "", template_args := [], is_slicing := false,
        body := [] }).body.getLast? = some (.stmt "no_op") ∧
    last_is_commit cfg0 (prog_commit_noop.headD
      { name := "", template_args := [], is_slicing := false,
        body := [] }).body = false := by
  exact ⟨rfl, rfl, rfl⟩

/-- C4 amended, witnessed on the one-`commit` slicing prototype `f` pushed
from `main`: its instance has `0 + 1` segments and the tail segment ends
with the continuation call `main_seg1` followed by `END` and the blank
separator. -/
theorem c4_amended_witness :
    c4w_inst.compiled_segments.length =
      countPush cfg0 (instance_body c4w_proto c4w_loc) + 1 ∧
    (∃ seg, c4w_inst.compiled_segments.getLast? = some seg ∧
      List.IsSuffix
        ("   " ++ "main_seg1" ++ "\n" ++ cgkw cfg0 "end" ++ "\n\n").toList
        seg.toList) := by
  have h := c4_amended 8 cfg0 c4w_proto c4w_loc initGState c4w_inst c4w_gst
    { name := "main[segment:1]", comp_name := "main_seg1" } rfl rfl
    (by decide) rfl
  exact ⟨h.1, h.2 (by decide)⟩

end NumKa
